import Mathlib

/-!
Verification development for the provisioning reconciler of the
LLM_Benchmarking repository.

Each namespace below is a shallow embedding of one Python source module:

* `Retry`      — `src/utils/aws/opensearch/vector.py`, `VectorStore._invoke_with_retry`
* `Graph`      — `src/utils/aws/neptune/graph.py`, `NeptuneGraph._connect_with_retries`

Python exceptions are modelled with `Except String`; wall-clock sleeps are
recorded as the list of delay values passed to `time.sleep`; floats are
modelled as rationals.  Loops bounded by wall-clock timeouts are modelled by
finite observation lists: one list entry per poll, exhaustion of the list
standing for the timeout branch of the loop.
-/

deriving instance DecidableEq for Except

namespace Retry

/-- Outcome of one run of the retry loop: the final result (`outcome`),
the delays passed to `time.sleep` in order (`sleeps`), and how many times
the wrapped operation was invoked (`calls`). -/
structure RunResult (A : Type) where
  outcome : Except String A
  sleeps : List ℚ
  calls : Nat
deriving Repr, DecidableEq

/-- Body of `VectorStore._invoke_with_retry` (vector.py lines 95-111).

`op i` is what the call `operation(*args, **kwargs)` returns on its
`i`-th invocation (0-based); `jit i` is the value `random.uniform(0, 1)`
drawn before the `i`-th sleep.  `remaining` counts how many loop
iterations of `for attempt in range(max_retries)` are left, `attempt` is
the current loop index; the two move in lockstep so that
`remaining + attempt = max_retries` throughout.

The loop catches every `Exception`: there is no classification of errors
into transient and non-transient.  When `attempt == max_retries - 1`
(here `remaining = 1`) the exception is re-raised; otherwise the loop
sleeps `min(max_delay, min_delay * 2 ** attempt + random.uniform(0, 1))`
and retries. -/
def invokeWithRetryGo {A : Type} (op : Nat → Except String A) (jit : Nat → ℚ)
    (minDelay maxDelay : ℚ) : Nat → Nat → RunResult A
  | 0, _ => ⟨.error "no attempts", [], 0⟩
  | remaining + 1, attempt =>
    match op attempt with
    | .ok a => ⟨.ok a, [], 1⟩
    | .error e =>
      if remaining = 0 then ⟨.error e, [], 1⟩
      else
        let d := min maxDelay (minDelay * 2 ^ attempt + jit attempt)
        let rest := invokeWithRetryGo op jit minDelay maxDelay remaining (attempt + 1)
        ⟨rest.outcome, d :: rest.sleeps, rest.calls + 1⟩

/-- `VectorStore._invoke_with_retry` with configuration values
`max_retries`, `min_delay`, `max_delay` from `VectorSearchConfig`
(types.py lines 21-30). -/
def invokeWithRetry {A : Type} (op : Nat → Except String A) (jit : Nat → ℚ)
    (minDelay maxDelay : ℚ) (maxRetries : Nat) : RunResult A :=
  invokeWithRetryGo op jit minDelay maxDelay maxRetries 0

/-- The delay slept after failed attempt `i` with `min_delay = minD`. -/
def delayAt (jit : Nat → ℚ) (minD maxD : ℚ) (i : Nat) : ℚ :=
  min maxD (minD * 2 ^ i + jit i)

end Retry

namespace Graph

/-- Outcome of one connection attempt of `NeptuneGraph._connect_with_retries`
(graph.py lines 54-93).  `failConnect` models `DriverRemoteConnection`
itself raising (no transport was opened); `failAfterOpen` models a failure
of `traversal().withRemote` or of the liveness query `g.V().limit(1).toList()`
after the transport was opened — in that case `self.connection` is truthy
and the except-branch closes it. -/
inductive Attempt where
  | success
  | failConnect (e : String)
  | failAfterOpen (e : String)
deriving Repr, DecidableEq

/-- The error message carried by a failed attempt (`""` for a success). -/
def Attempt.errMsg : Attempt → String
  | .success => ""
  | .failConnect e => e
  | .failAfterOpen e => e

/-- Whether the attempt failed. -/
def Attempt.isFail : Attempt → Bool
  | .success => false
  | _ => true

/-- Whether the attempt opened a transport that the except-branch must close. -/
def Attempt.opened : Attempt → Bool
  | .failAfterOpen _ => true
  | _ => false

/-- A run of the connection loop: final result (a raised `ConnectionError`
carries its message and the chained cause `last_error`), the delays slept,
and the 0-based indices of the attempts after which `self.connection.close()`
was called. -/
structure ConnRun where
  outcome : Except (String × Option String) Unit
  sleeps : List ℚ
  closes : List Nat
deriving Repr, DecidableEq

/-- Loop body of `NeptuneGraph._connect_with_retries`: `att i` is the outcome
of the `i`-th attempt, `retryDelay` is `self.retry_delay`, `total` is
`self.max_retries` (used in the final error message).  On failure the code
closes an opened transport, then either sleeps `min(60, retry_delay * 2 ** attempt)`
and retries (when `attempt < max_retries - 1`) or raises
`ConnectionError(...) from last_error`. -/
def connectGo (att : Nat → Attempt) (retryDelay : ℚ) (total : Nat) :
    Nat → Nat → ConnRun
  | 0, _ => ⟨.ok (), [], []⟩
  | remaining + 1, attempt =>
    match att attempt with
    | .success => ⟨.ok (), [], []⟩
    | .failConnect e =>
      if remaining = 0 then
        ⟨.error ("Failed to connect to Neptune after " ++ toString total ++ " attempts",
          some e), [], []⟩
      else
        let d := min 60 (retryDelay * 2 ^ attempt)
        let rest := connectGo att retryDelay total remaining (attempt + 1)
        ⟨rest.outcome, d :: rest.sleeps, rest.closes⟩
    | .failAfterOpen e =>
      if remaining = 0 then
        ⟨.error ("Failed to connect to Neptune after " ++ toString total ++ " attempts",
          some e), [], [attempt]⟩
      else
        let d := min 60 (retryDelay * 2 ^ attempt)
        let rest := connectGo att retryDelay total remaining (attempt + 1)
        ⟨rest.outcome, d :: rest.sleeps, attempt :: rest.closes⟩

/-- `NeptuneGraph._connect_with_retries`.  For `max_retries = 0` the Python
loop body never runs and the method falls through and returns `None`
without connecting; `connectGo` mirrors this with its fuel-0 case. -/
def connectWithRetries (att : Nat → Attempt) (retryDelay : ℚ) (maxRetries : Nat) :
    ConnRun :=
  connectGo att retryDelay maxRetries maxRetries 0

end Graph

namespace Neptune

/-!
Embedding of `src/utils/aws/neptune/cluster.py` (`NeptuneManager`).

The Neptune control plane is a record of resource lists.  A status that
evolves while a poll loop runs is modelled by the field `future`: the
statuses that successive `describe` polls inside a wait loop will observe
after the current one; exhausting the list models the wall-clock timeout
branch of the loop.  Deletion is modelled synchronously (a delete call
removes the record), so the wait-for-deletion loops converge on their
first poll; the claims below do not depend on deletion latency.
-/

/-- One Neptune DB cluster as seen through `describe_db_clusters`. -/
structure NCluster where
  id : String
  status : String
  future : List String
  endpoint : String
  iamAuth : Bool
  paramGroup : String
deriving Repr, DecidableEq

/-- One Neptune DB instance as seen through `describe_db_instances`. -/
structure NInstance where
  id : String
  clusterId : String
  status : String
  future : List String
deriving Repr, DecidableEq

/-- Mutating control-plane calls issued by `NeptuneManager`, in issue order. -/
inductive NCall where
  | modifyClusterIam
  | modifyClusterParamGroup
  | createParamGroupC
  | createSubnetGroupC
  | createDbClusterC
  | createDbInstanceC
  | deleteDbInstanceC
  | deleteDbClusterC
  | deleteParamGroupC
  | deleteSubnetGroupC
deriving Repr, DecidableEq

/-- The Neptune/EC2 control-plane state visible to `NeptuneManager`.
`sgVpc` and `subnetVpc` map security-group / subnet ids to their VPC id.
`newClusterFuture` / `newInstanceFuture` are the statuses successive polls
observe for a freshly created cluster / instance; `dnsObs` are the
successive outcomes of `socket.gethostbyname` probes. -/
structure NepEnv where
  clusters : List NCluster
  instances : List NInstance
  paramGroups : List String
  subnetGroups : List String
  sgVpc : List (String × String)
  subnetVpc : List (String × String)
  newClusterFuture : List String
  newInstanceFuture : List String
  dnsObs : List Bool
  log : List NCall
deriving Repr, DecidableEq

/-- The mutable fields of a `NeptuneManager` object. -/
structure Mgr where
  clusterId : Option String
  instanceId : Option String
  endpoint : Option String
  vpcId : Option String
  subnetIds : List String
  securityGroupId : Option String
deriving Repr, DecidableEq

/-- `self.param_group_name = f"{cluster_name}-params"`. -/
def paramGroupName (clusterName : String) : String := clusterName ++ "-params"

/-- `describe_db_clusters(DBClusterIdentifier=cid)`: the cluster record, if any. -/
def describeCluster (env : NepEnv) (cid : String) : Option NCluster :=
  env.clusters.find? (fun c => c.id == cid)

/-- `describe_db_instances(DBInstanceIdentifier=iid)`: the instance record, if any. -/
def describeInstance (env : NepEnv) (iid : String) : Option NInstance :=
  env.instances.find? (fun i => i.id == iid)

/-- `describe_db_instances(Filters=[{'Name': 'db-cluster-id', 'Values': [cid]}])`. -/
def instancesOf (env : NepEnv) (cid : String) : List NInstance :=
  env.instances.filter (fun i => i.clusterId == cid)

/-- VPC id of a security group, through `describe_security_groups`. -/
def lookupSgVpc (env : NepEnv) (g : String) : Option String :=
  (env.sgVpc.find? (fun p => p.1 == g)).map (fun p => p.2)

/-- VPC id of a subnet, through `describe_subnets`. -/
def lookupSubnetVpc (env : NepEnv) (s : String) : Option String :=
  (env.subnetVpc.find? (fun p => p.1 == s)).map (fun p => p.2)

/-- Point update of one cluster record. -/
def updateCluster (env : NepEnv) (cid : String) (f : NCluster → NCluster) : NepEnv :=
  { env with clusters := env.clusters.map (fun c => if c.id == cid then f c else c) }

/-- Point update of one instance record. -/
def updateInstance (env : NepEnv) (iid : String) (f : NInstance → NInstance) : NepEnv :=
  { env with instances := env.instances.map (fun i => if i.id == iid then f i else i) }

/-- Append one call to the log. -/
def logCall (env : NepEnv) (c : NCall) : NepEnv :=
  { env with log := env.log ++ [c] }

/-- The status observations of a wait loop (`_wait_for_cluster` /
`_wait_for_instance`, cluster.py lines 303-351): return the unobserved
remainder on seeing `available`, fail on `failed`, keep polling otherwise;
an exhausted list is the timeout branch. -/
def waitScan : List String → Except String (List String)
  | [] => .error "Timeout waiting"
  | s :: rest =>
    if s == "available" then .ok rest
    else if s == "failed" then .error "creation failed"
    else waitScan rest

/-- `_wait_for_cluster(cluster_id)`: on success the cluster has just been
observed `available`. -/
def waitForCluster (env : NepEnv) (cid : String) : Except String Unit × NepEnv :=
  match describeCluster env cid with
  | none => (.error "Cluster not found", env)
  | some c =>
    match waitScan (c.status :: c.future) with
    | .ok rest =>
      (.ok (), updateCluster env cid (fun c => { c with status := "available", future := rest }))
    | .error e => (.error e, env)

/-- `_wait_for_instance(instance_id)`. -/
def waitForInstance (env : NepEnv) (iid : String) : Except String Unit × NepEnv :=
  match describeInstance env iid with
  | none => (.error "Instance not found", env)
  | some i =>
    match waitScan (i.status :: i.future) with
    | .ok rest =>
      (.ok (), updateInstance env iid (fun i => { i with status := "available", future := rest }))
    | .error e => (.error e, env)

/-- `create_parameter_group` (cluster.py lines 160-172): the create call is
issued; a `DBParameterGroupAlreadyExists` response is swallowed. -/
def createParameterGroup (clusterName : String) (env : NepEnv) : NepEnv :=
  let env := logCall env .createParamGroupC
  if env.paramGroups.contains (paramGroupName clusterName) then env
  else { env with paramGroups := env.paramGroups ++ [paramGroupName clusterName] }

/-- `_ensure_instance` (cluster.py lines 353-383).  Uses `self.cluster_id`;
on a fresh manager that field is still `None` and the `describe_db_instances`
filter value `[None]` fails botocore parameter validation. -/
def ensureInstance (clusterName : String) (env : NepEnv) (mgr : Mgr) :
    Except String Unit × NepEnv × Mgr :=
  match mgr.clusterId with
  | none => (.error "Parameter validation failed: db-cluster-id filter value is None", env, mgr)
  | some cid =>
    match instancesOf env cid with
    | [] =>
      let iid := clusterName ++ "-instance"
      let mgr := { mgr with instanceId := some iid }
      let env := logCall
        { env with instances := env.instances ++ [⟨iid, cid, "creating", env.newInstanceFuture⟩] }
        .createDbInstanceC
      match waitForInstance env iid with
      | (.ok _, env') => (.ok (), env', mgr)
      | (.error e, env') => (.error e, env', mgr)
    | inst :: _ =>
      let mgr := { mgr with instanceId := some inst.id }
      if inst.status == "available" then (.ok (), env, mgr)
      else
        match waitForInstance env inst.id with
        | (.ok _, env') => (.ok (), env', mgr)
        | (.error e, env') => (.error e, env', mgr)

/-- The parameter-group arm of `_fix_cluster_config` (cluster.py lines
93-108): when the `cluster` record fetched at the top carries a different
parameter group, issue the (already-exists-tolerant) parameter-group
create call and an apply-immediately modify; its inner `except` cannot
fire in this model. -/
def fixParamGroupStep (clusterName cid : String) (c : NCluster) (env1 : NepEnv) : NepEnv :=
  if c.paramGroup == paramGroupName clusterName then env1
  else
    logCall
      (updateCluster (createParameterGroup clusterName env1) cid
        (fun d => { d with paramGroup := paramGroupName clusterName }))
      .modifyClusterParamGroup

/-- `_fix_cluster_config` (cluster.py lines 69-128).  The outer `except`
turns any escaped exception into `False`; the IAM-auth step has its own
`except` that records `fixed = False` but lets the method continue.  The
parameter-group and instance checks read the `cluster` record fetched at
the top, as the source does. -/
def fixClusterConfig (clusterName : String) (cid : String) (env : NepEnv) (mgr : Mgr) :
    Bool × NepEnv × Mgr :=
  match describeCluster env cid with
  | none => (false, env, mgr)
  | some c =>
    match (if c.iamAuth then (true, env)
      else
        match waitForCluster
          (logCall (updateCluster env cid (fun c => { c with iamAuth := true }))
            .modifyClusterIam) cid with
        | (.ok _, env2) => (true, env2)
        | (.error _, env2) => (false, env2) : Bool × NepEnv) with
    | (fixed1, env1) =>
      match instancesOf (fixParamGroupStep clusterName cid c env1) cid with
      | [] =>
        match ensureInstance clusterName (fixParamGroupStep clusterName cid c env1) mgr with
        | (.ok _, env3, mgr3) => (fixed1, env3, mgr3)
        | (.error _, env3, mgr3) => (false, env3, mgr3)
      | inst :: _ =>
        if inst.status == "available" then (fixed1, fixParamGroupStep clusterName cid c env1, mgr)
        else (false, fixParamGroupStep clusterName cid c env1, mgr)

/-- `_find_existing_cluster` (cluster.py lines 130-158). -/
def findExistingCluster (clusterName : String) (env : NepEnv) (mgr : Mgr) :
    Except String (Option String) × NepEnv × Mgr :=
  match describeCluster env clusterName with
  | none => (.ok none, env, mgr)
  | some c =>
    if c.status != "available" then (.ok none, env, mgr)
    else
      match fixClusterConfig clusterName c.id env mgr with
      | (false, env1, mgr1) => (.ok none, env1, mgr1)
      | (true, env1, mgr1) =>
        let mgr2 := { mgr1 with clusterId := some c.id, endpoint := some c.endpoint }
        match ensureInstance clusterName env1 mgr2 with
        | (.ok _, env2, mgr3) => (.ok (some c.endpoint), env2, mgr3)
        | (.error e, env2, mgr3) => (.error e, env2, mgr3)

/-- `_check_dns_propagation` observations: keep probing until a resolution
succeeds; an exhausted list is the timeout branch. -/
def dnsScan : List Bool → Except String (List Bool)
  | [] => .error "DNS propagation timeout"
  | b :: rest => if b then .ok rest else dnsScan rest

/-- The VPC-validation block of `create_cluster` (cluster.py lines
222-257): fetch the security group's VPC and every subnet's VPC, raise a
`ValueError` when the subnets span several VPCs or the security group's
VPC differs from theirs, and return the common VPC id otherwise.  The
block only describes resources, so it leaves the control plane
unchanged; errors escaping it are re-raised by the surrounding
handlers. -/
def validateVpcSettings (subnetIds : List String) (securityGroupId : Option String)
    (env : NepEnv) : Except String String :=
  match securityGroupId with
  | none => .error "Parameter validation failed: GroupIds value is None"
  | some g =>
    match lookupSgVpc env g with
    | none => .error "InvalidGroup.NotFound"
    | some sgv =>
      match subnetIds.mapM (lookupSubnetVpc env) with
      | none => .error "InvalidSubnetID.NotFound"
      | some ws =>
        if 1 < ws.dedup.length then .error "Subnets are in different VPCs"
        else
          match ws.dedup with
          | [] => .error "StopIteration"
          | w :: _ =>
            if sgv != w then .error "Security group VPC does not match subnet VPC"
            else .ok sgv

/-- `create_cluster` (cluster.py lines 174-301). -/
def createCluster (clusterName : String) (subnetIds : List String)
    (securityGroupId : Option String) (subnetGroupOpt : Option String)
    (env : NepEnv) (mgr : Mgr) : Except String String × NepEnv × Mgr :=
  let mgr := { mgr with securityGroupId := securityGroupId }
  match findExistingCluster clusterName env mgr with
  | (.error e, env1, mgr1) => (.error e, env1, mgr1)
  | (.ok (some ep), env1, mgr1) => (.ok ep, env1, mgr1)
  | (.ok none, env1, mgr1) =>
    let env2 := createParameterGroup clusterName env1
    let sgn := subnetGroupOpt.getD (clusterName ++ "-subnet-group")
    let env3 :=
      if env2.subnetGroups.contains sgn then env2
      else logCall { env2 with subnetGroups := env2.subnetGroups ++ [sgn] } .createSubnetGroupC
    match validateVpcSettings subnetIds securityGroupId env3 with
    | .error e => (.error e, env3, mgr1)
    | .ok sgv =>
                let mgr2 := { mgr1 with vpcId := some sgv, subnetIds := subnetIds }
                let env4 := logCall env3 .createDbClusterC
                if (describeCluster env4 clusterName).isSome then
                  (.error "DBClusterAlreadyExistsFault", env4, mgr2)
                else
                  let ep := clusterName ++ ".cluster.neptune.local"
                  let env5 := { env4 with clusters := env4.clusters ++
                    [⟨clusterName, "creating", env4.newClusterFuture, ep, true,
                      paramGroupName clusterName⟩] }
                  let mgr3 := { mgr2 with clusterId := some clusterName }
                  match waitForCluster env5 clusterName with
                  | (.error e, env6) => (.error e, env6, mgr3)
                  | (.ok _, env6) =>
                    match describeCluster env6 clusterName with
                    | none => (.error "DBClusterNotFoundFault", env6, mgr3)
                    | some c2 =>
                      let mgr4 := { mgr3 with endpoint := some c2.endpoint }
                      match ensureInstance clusterName env6 mgr4 with
                      | (.error e, env7, mgr5) => (.error e, env7, mgr5)
                      | (.ok _, env7, mgr5) =>
                        match dnsScan env7.dnsObs with
                        | .error e => (.error e, { env7 with dnsObs := [] }, mgr5)
                        | .ok rest => (.ok c2.endpoint, { env7 with dnsObs := rest }, mgr5)

/-- `setup_cluster` (cluster.py lines 489-521).  Python truthiness:
`not self.vpc_id` is `True` both for `None` and for the empty string. -/
def setupCluster (clusterName : String) (env : NepEnv) (mgr : Mgr) :
    Except String String × NepEnv × Mgr :=
  match findExistingCluster clusterName env mgr with
  | (.error e, env1, mgr1) => (.error e, env1, mgr1)
  | (.ok (some ep), env1, mgr1) => (.ok ep, env1, mgr1)
  | (.ok none, env1, mgr1) =>
    if (mgr1.vpcId.getD "").isEmpty || mgr1.subnetIds.isEmpty then
      (.error "VPC and subnet settings must be provided before creating cluster", env1, mgr1)
    else
      createCluster clusterName mgr1.subnetIds mgr1.securityGroupId none env1 mgr1

/-- `cleanup` (cluster.py lines 401-487) with deletion modelled
synchronously: each delete call removes the record, so the wait-for-deletion
loop observes `NotFound` on its first poll and exits.  A `NotFound` from a
delete call on an already-absent resource is swallowed, matching the
`except ClientError` arms of the source. -/
def cleanup (clusterName : String) (cleanupEnabled : Bool) (env : NepEnv) (mgr : Mgr) :
    Except String Unit × NepEnv :=
  if !cleanupEnabled then (.ok (), env)
  else
    let envI :=
      match mgr.instanceId with
      | none => env
      | some iid =>
        let env := logCall env .deleteDbInstanceC
        if (describeInstance env iid).isSome then
          { env with instances := env.instances.filter (fun i => i.id != iid) }
        else env
    match mgr.clusterId with
    | none => (.ok (), envI)
    | some cid =>
      let envC :=
        let e := logCall envI .deleteDbClusterC
        if (describeCluster e cid).isSome then
          { e with clusters := e.clusters.filter (fun c => c.id != cid) }
        else e
      let envP :=
        let e := logCall envC .deleteParamGroupC
        if e.paramGroups.contains (paramGroupName clusterName) then
          { e with paramGroups := e.paramGroups.filter (fun p => p != paramGroupName clusterName) }
        else e
      let envS :=
        let e := logCall envP .deleteSubnetGroupC
        if e.subnetGroups.contains (clusterName ++ "-subnet-group") then
          { e with subnetGroups :=
            e.subnetGroups.filter (fun s => s != clusterName ++ "-subnet-group") }
        else e
      (.ok (), envS)

end Neptune

namespace OpenSearch

/-!
Embedding of `src/utils/aws/opensearch/manager.py` (`OpenSearchManager`).

Successive `describe_domain` calls for the configured domain name observe
the entries of `timeline` in order: `some snap` is a `DomainStatus`
record, `none` is a `ResourceNotFoundException`; an exhausted timeline in
a poll loop models the wall-clock-timeout branch.  A Python falsy
`Endpoint` or `EngineVersion` (absent key or empty string) is modelled as
`none`.  `os.environ['OPENSEARCH_HOST']` is the field `envHost`.
-/

/-- One `DomainStatus` record. -/
structure Snap where
  deleted : Bool
  processing : Bool
  endpoint : Option String
  engineVersion : Option String
  domainId : String
deriving Repr, DecidableEq

/-- Control-plane calls issued by `OpenSearchManager`, in issue order. -/
inductive OCall where
  | describeDomainC
  | createDomainC
  | deleteDomainC
deriving Repr, DecidableEq

/-- Control-plane state visible to `OpenSearchManager`.  `createdTimeline`
is what describes observe once `create_domain` has been issued;
`createSnap` is the `DomainStatus` in the `create_domain` response
(`none` models a response without one); `domainPresent` decides whether
`delete_domain` succeeds or answers `ResourceNotFoundException`. -/
structure OSEnv where
  timeline : List (Option Snap)
  createdTimeline : List (Option Snap)
  createSnap : Option Snap
  domainPresent : Bool
  dnsObs : List Bool
  envHost : Option String
  log : List OCall
deriving Repr, DecidableEq

/-- Append one call to the log. -/
def logO (env : OSEnv) (c : OCall) : OSEnv :=
  { env with log := env.log ++ [c] }

/-- `describe_domain(DomainName=...)`: consume the next timeline
observation (`none` = `ResourceNotFoundException`). -/
def describeDomain (env : OSEnv) : Option Snap × OSEnv :=
  match env.timeline with
  | [] => (none, logO env .describeDomainC)
  | t :: rest => (t, logO { env with timeline := rest } .describeDomainC)

/-- `_wait_for_domain` (manager.py lines 145-177): poll `describe_domain`;
raise if the domain is marked `Deleted` or vanishes; keep polling while
`Processing` or while no `Endpoint` is populated; return once an endpoint
is present.  The fuel argument only bounds recursion; it never cuts a run
short because `waitForDomain` passes one more unit than the timeline is
long and each iteration consumes one timeline entry. -/
def waitForDomainGo : Nat → OSEnv → Except String Unit × OSEnv
  | 0, env => (.error "Timeout waiting for domain", env)
  | fuel + 1, env =>
    match describeDomain env with
    | (none, env1) => (.error "Domain not found", env1)
    | (some s, env1) =>
      if s.deleted then (.error "Domain is being deleted", env1)
      else if s.processing then waitForDomainGo fuel env1
      else if s.endpoint.isSome then (.ok (), env1)
      else waitForDomainGo fuel env1

/-- `_wait_for_domain`. -/
def waitForDomain (env : OSEnv) : Except String Unit × OSEnv :=
  waitForDomainGo (env.timeline.length + 1) env

/-- Tail of `_find_existing_domain` from line 47 on, applied to the
snapshot in hand: a `Deleted` domain yields `None` (so the caller goes on
to create); `_fix_domain_config` (lines 69-73) requires a truthy
`EngineVersion` and `Endpoint`; otherwise the endpoint is returned after
being written to `os.environ['OPENSEARCH_HOST']`. -/
def finishFind (s : Snap) (env : OSEnv) : Except String (Option String) × OSEnv :=
  if s.deleted then (.ok none, env)
  else
    match s.engineVersion, s.endpoint with
    | some _, some ep => (.ok (some ep), { env with envHost := some ep })
    | _, _ => (.ok none, env)

/-- `_find_existing_domain` (manager.py lines 33-67).  A
`ResourceNotFoundException` from either `describe_domain` is caught and
turned into `None`; the generic exceptions raised inside `_wait_for_domain`
are not caught and propagate. -/
def findExistingDomain (env : OSEnv) : Except String (Option String) × OSEnv :=
  match describeDomain env with
  | (none, env1) => (.ok none, env1)
  | (some s0, env1) =>
    if s0.processing then
      match waitForDomain env1 with
      | (.error e, env2) => (.error e, env2)
      | (.ok _, env2) =>
        match describeDomain env2 with
        | (none, env3) => (.ok none, env3)
        | (some s1, env3) => finishFind s1 env3
    else finishFind s0 env1

/-- `_check_dns_propagation` observations (manager.py lines 179-197). -/
def checkDns : List Bool → Except String (List Bool)
  | [] => .error "DNS propagation timeout"
  | b :: rest => if b then .ok rest else checkDns rest

/-- `setup_domain` (manager.py lines 75-143).  When `_find_existing_domain`
yields nothing, `create_domain` is issued at once; from then on describes
observe `createdTimeline`. -/
def setupDomain (env : OSEnv) : Except String String × OSEnv :=
  match findExistingDomain env with
  | (.error e, env1) => (.error e, env1)
  | (.ok (some ep), env1) => (.ok ep, env1)
  | (.ok none, env1) =>
    let env2 := logO { env1 with timeline := env1.createdTimeline, domainPresent := true }
      .createDomainC
    match env2.createSnap with
    | none => (.error "Failed to get domain status from response", env2)
    | some _ =>
      match waitForDomain env2 with
      | (.error e, env3) => (.error e, env3)
      | (.ok _, env3) =>
        match describeDomain env3 with
        | (none, env4) => (.error "ResourceNotFoundException", env4)
        | (some s, env4) =>
          match s.endpoint with
          | none => (.error "KeyError: Endpoint", env4)
          | some ep =>
            let env5 := { env4 with envHost := some ep }
            match checkDns env5.dnsObs with
            | .error e => (.error e, { env5 with dnsObs := [] })
            | .ok rest => (.ok ep, { env5 with dnsObs := rest })

/-- `_wait_for_deletion` (manager.py lines 217-238): poll until a describe
answers `ResourceNotFoundException`. -/
def waitForDeletionGo : Nat → OSEnv → Except String Unit × OSEnv
  | 0, env => (.error "Timeout waiting for domain deletion", env)
  | fuel + 1, env =>
    match describeDomain env with
    | (none, env1) => (.ok (), env1)
    | (some _, env1) => waitForDeletionGo fuel env1

/-- `_wait_for_deletion`. -/
def waitForDeletion (env : OSEnv) : Except String Unit × OSEnv :=
  waitForDeletionGo (env.timeline.length + 1) env

/-- `cleanup` (manager.py lines 199-215): a no-op while `cleanup_enabled`
is false; otherwise `delete_domain` is issued, a `ResourceNotFoundException`
is swallowed, and a successful delete is followed by `_wait_for_deletion`. -/
def cleanup (cleanupEnabled : Bool) (env : OSEnv) : Except String Unit × OSEnv :=
  if !cleanupEnabled then (.ok (), env)
  else
    let env1 := logO env .deleteDomainC
    if env1.domainPresent then waitForDeletion { env1 with domainPresent := false }
    else (.ok (), env1)

end OpenSearch

namespace NepUtils

/-!
Embedding of the teardown path of `src/utils/aws/neptune_utils.py`
(`NeptuneManager.cleanup`, lines 632-721, and `NeptuneManager._cleanup_vpc`,
lines 382-456).  Deletes of the database-side resources are wrapped in
`except ClientError` arms that swallow `NotFound`; none of the delete
calls inside `_cleanup_vpc` has such an arm — its single outer `except`
logs and re-raises.
-/

/-- One NAT gateway. -/
structure UNatGw where
  id : String
  vpcId : String
  state : String
deriving Repr, DecidableEq

/-- One internet gateway with its attachment. -/
structure UIgw where
  id : String
  attached : Option String
deriving Repr, DecidableEq

/-- One route table; `main` is whether some association carries the
`Main` flag. -/
structure URt where
  id : String
  vpcId : String
  main : Bool
deriving Repr, DecidableEq

/-- One security group. -/
structure USg where
  id : String
  vpcId : String
  groupName : String
deriving Repr, DecidableEq

/-- Delete-side control-plane calls of neptune_utils, in issue order. -/
inductive UCall where
  | deleteDbInstanceU
  | deleteDbClusterU
  | deleteParamGroupU
  | deleteSubnetGroupU
  | deleteNatU
  | releaseAddressU
  | detachIgwU
  | deleteIgwU
  | deleteSubnetU
  | deleteRouteTableU
  | deleteSgU
  | deleteVpcU
deriving Repr, DecidableEq

/-- Control-plane state for the neptune_utils teardown. -/
structure UEnv where
  natGws : List UNatGw
  addresses : List String
  igws : List UIgw
  subnets : List (String × String)
  routeTables : List URt
  secGroups : List USg
  vpcs : List String
  instances : List String
  clusters : List String
  paramGroups : List String
  subnetGroups : List String
  log : List UCall
deriving Repr, DecidableEq

/-- The manager fields `cleanup` reads. -/
structure UMgr where
  cleanupEnabled : Bool
  instanceId : Option String
  clusterId : Option String
  vpcId : Option String
  eipAllocationId : Option String
deriving Repr, DecidableEq

/-- Append one call to the log. -/
def logU (env : UEnv) (c : UCall) : UEnv :=
  { env with log := env.log ++ [c] }

/-- The NAT-gateway loop of `_cleanup_vpc` (lines 385-401): delete every
NAT of the VPC not already `deleted`/`deleting`, then poll until its state
is `deleted` (deletion modelled synchronously). -/
def deleteNats (vpcId : String) (env : UEnv) : UEnv :=
  { env with
    natGws := env.natGws.map (fun n =>
      if n.vpcId == vpcId && n.state != "deleted" && n.state != "deleting" then
        { n with state := "deleted" }
      else n),
    log := env.log ++ (env.natGws.filter (fun n =>
      n.vpcId == vpcId && n.state != "deleted" && n.state != "deleting")).map
        (fun _ => UCall.deleteNatU) }

/-- `_cleanup_vpc` (neptune_utils.py lines 382-456).  `release_address` on
an allocation id that no longer exists answers
`InvalidAllocationID.NotFound`; no arm swallows it, so the outer `except`
re-raises and teardown aborts. -/
def cleanupVpc (eipAllocationId : Option String) (vpcId : String) (env : UEnv) :
    Except String Unit × UEnv :=
  let env1 := deleteNats vpcId env
  let releaseStep : Except String Unit × UEnv :=
    match eipAllocationId with
    | none => (.ok (), env1)
    | some a =>
      let e := logU env1 .releaseAddressU
      if e.addresses.contains a then
        (.ok (), { e with addresses := e.addresses.filter (fun x => x != a) })
      else (.error "InvalidAllocationID.NotFound", e)
  match releaseStep with
  | (.error e, env2) => (.error e, env2)
  | (.ok _, env2) =>
    let igwsHere := env2.igws.filter (fun g => g.attached == some vpcId)
    let env3 := { env2 with
      igws := env2.igws.filter (fun g => g.attached != some vpcId),
      log := env2.log ++ (igwsHere.map (fun _ => [UCall.detachIgwU, UCall.deleteIgwU])).flatten }
    let subsHere := env3.subnets.filter (fun s => s.2 == vpcId)
    let env4 := { env3 with
      subnets := env3.subnets.filter (fun s => s.2 != vpcId),
      log := env3.log ++ subsHere.map (fun _ => UCall.deleteSubnetU) }
    let rtsHere := env4.routeTables.filter (fun r => r.vpcId == vpcId && !r.main)
    let env5 := { env4 with
      routeTables := env4.routeTables.filter (fun r => !(r.vpcId == vpcId && !r.main)),
      log := env4.log ++ rtsHere.map (fun _ => UCall.deleteRouteTableU) }
    let sgsHere := env5.secGroups.filter (fun g => g.vpcId == vpcId && g.groupName != "default")
    let env6 := { env5 with
      secGroups := env5.secGroups.filter (fun g => !(g.vpcId == vpcId && g.groupName != "default")),
      log := env5.log ++ sgsHere.map (fun _ => UCall.deleteSgU) }
    let env7 := logU env6 .deleteVpcU
    if env7.vpcs.contains vpcId then
      (.ok (), { env7 with vpcs := env7.vpcs.filter (fun v => v != vpcId) })
    else (.error "InvalidVpcID.NotFound", env7)

/-- `cleanup` of neptune_utils (lines 632-721): tolerant deletes of the
instance, cluster, parameter group and subnet group (each `NotFound` is
swallowed), then `_cleanup_vpc` when a VPC id is tracked.  Deletion is
modelled synchronously, so the wait-for-deletion loops exit on their
first poll. -/
def cleanupU (clusterName : String) (mgr : UMgr) (env : UEnv) :
    Except String Unit × UEnv :=
  if !mgr.cleanupEnabled then (.ok (), env)
  else
    let envI :=
      match mgr.instanceId with
      | none => env
      | some iid =>
        let e := logU env .deleteDbInstanceU
        if e.instances.contains iid then
          { e with instances := e.instances.filter (fun i => i != iid) }
        else e
    match mgr.clusterId with
    | none => (.ok (), envI)
    | some cid =>
      let envC :=
        let e := logU envI .deleteDbClusterU
        if e.clusters.contains cid then
          { e with clusters := e.clusters.filter (fun c => c != cid) }
        else e
      let envP :=
        let e := logU envC .deleteParamGroupU
        if e.paramGroups.contains (clusterName ++ "-params") then
          { e with paramGroups := e.paramGroups.filter (fun p => p != clusterName ++ "-params") }
        else e
      let envS :=
        let e := logU envP .deleteSubnetGroupU
        if e.subnetGroups.contains (clusterName ++ "-subnet-group") then
          { e with subnetGroups :=
            e.subnetGroups.filter (fun s => s != clusterName ++ "-subnet-group") }
        else e
      match mgr.vpcId with
      | none => (.ok (), envS)
      | some v => cleanupVpc mgr.eipAllocationId v envS

end NepUtils

namespace VPC

/-!
Embedding of `src/utils/aws/neptune/vpc.py` (`VPCManager`): `create_vpc`,
`_find_existing_vpc`, `_fix_vpc_config` and `_fix_routing_tables`.

Resource ids are generated from the counter `next` (`vpc-0`, `subnet-3`,
...), so two runs over the same state produce the same ids.  Tag filters
with a trailing `*` are prefix matches, all others exact matches.  The
`nat_gateway_available` waiter is modelled as the NAT gateway converging
to `available`.
-/

/-- One VPC: its `Name` tag and the `enableDnsHostnames` attribute. -/
structure Vpc where
  id : String
  nameTag : String
  dns : Bool
deriving Repr, DecidableEq

/-- One subnet. -/
structure Subnet where
  id : String
  vpcId : String
  nameTag : String
  az : String
  cidr : String
  mapPublicIp : Bool
deriving Repr, DecidableEq

/-- One internet gateway with its VPC attachment. -/
structure Igw where
  id : String
  attached : Option String
deriving Repr, DecidableEq

/-- One NAT gateway. -/
structure NatGw where
  id : String
  vpcId : String
  subnetId : String
  state : String
  nameTag : String
deriving Repr, DecidableEq

/-- One route of a route table (`create_route` in this module always uses
destination `0.0.0.0/0` with either a gateway id or a NAT gateway id). -/
structure RouteEntry where
  destCidr : String
  gatewayId : Option String
  natId : Option String
deriving Repr, DecidableEq

/-- One route table with its subnet associations. -/
structure RouteTable where
  id : String
  vpcId : String
  routes : List RouteEntry
  assocs : List String
deriving Repr, DecidableEq

/-- One security group; the rule lists only record what the authorize
calls added (nothing in this module reads them back). -/
structure SecGroup where
  id : String
  vpcId : String
  groupName : String
  ingressPorts : List Int
  egressProtocols : List String
deriving Repr, DecidableEq

/-- Mutating EC2 calls issued by `VPCManager`, in issue order. -/
inductive ECall where
  | createVpcCall
  | modifyVpcAttrCall
  | createIgwCall
  | attachIgwCall
  | createSubnetCall
  | modifySubnetAttrCall
  | allocateAddressCall
  | createNatCall
  | createRouteTableCall
  | createRouteCall
  | associateRtCall
  | createSgCall
  | authIngressCall
  | authEgressCall
deriving Repr, DecidableEq

/-- The EC2 control-plane state visible to `VPCManager`. -/
structure Env where
  vpcs : List Vpc
  subnets : List Subnet
  igws : List Igw
  natGws : List NatGw
  eips : List String
  routeTables : List RouteTable
  secGroups : List SecGroup
  azs : List String
  next : Nat
  log : List ECall
deriving Repr, DecidableEq

/-- A fresh resource id. -/
def fresh (env : Env) (pre : String) : String × Env :=
  (pre ++ toString env.next, { env with next := env.next + 1 })

/-- Append one call to the log. -/
def logE (env : Env) (c : ECall) : Env :=
  { env with log := env.log ++ [c] }

/-- AWS tag-filter matching: a trailing `*` makes the pattern a prefix
match, otherwise the match is exact (written over the character lists so
that it evaluates by kernel reduction). -/
def matchPat (pat s : String) : Bool :=
  if pat.data.getLast? = some '*' then pat.data.dropLast.isPrefixOf s.data
  else pat == s

/-- `describe_subnets` filtered by `vpc-id` and `tag:Name` patterns. -/
def subnetsByTag (env : Env) (vpcId : String) (pats : List String) : List Subnet :=
  env.subnets.filter (fun s => s.vpcId == vpcId && pats.any (fun p => matchPat p s.nameTag))

/-- `describe_route_tables` filtered by `association.subnet-id`. -/
def rtsBySubnetAssoc (env : Env) (subnetId : String) : List RouteTable :=
  env.routeTables.filter (fun r => r.assocs.contains subnetId)

/-- `describe_nat_gateways` filtered by `vpc-id`. -/
def natsByVpc (env : Env) (vpcId : String) : List NatGw :=
  env.natGws.filter (fun n => n.vpcId == vpcId)

/-- `describe_internet_gateways` filtered by `attachment.vpc-id`. -/
def igwsAttached (env : Env) (vpcId : String) : List Igw :=
  env.igws.filter (fun g => g.attached == some vpcId)

/-- Point update of one VPC record. -/
def updateVpc (env : Env) (vpcId : String) (f : Vpc → Vpc) : Env :=
  { env with vpcs := env.vpcs.map (fun v => if v.id == vpcId then f v else v) }

/-- `create_route_table(VpcId=...)`. -/
def createRouteTable (env : Env) (vpcId : String) : String × Env :=
  let (rtId, env1) := fresh env "rtb-"
  (rtId, logE { env1 with routeTables := env1.routeTables ++ [⟨rtId, vpcId, [], []⟩] }
    .createRouteTableCall)

/-- `create_route(RouteTableId=..., DestinationCidrBlock='0.0.0.0/0', ...)`. -/
def createRoute (env : Env) (rtId : String) (gw : Option String) (nat : Option String) : Env :=
  logE { env with routeTables := env.routeTables.map (fun r =>
    if r.id == rtId then { r with routes := r.routes ++ [⟨"0.0.0.0/0", gw, nat⟩] } else r) }
    .createRouteCall

/-- `associate_route_table`. -/
def associateRt (env : Env) (rtId subnetId : String) : Env :=
  logE { env with routeTables := env.routeTables.map (fun r =>
    if r.id == rtId then { r with assocs := r.assocs ++ [subnetId] } else r) }
    .associateRtCall

/-- `create_security_group`. -/
def createSecurityGroup (env : Env) (groupName vpcId : String) : String × Env :=
  let (sgId, env1) := fresh env "sg-"
  (sgId, logE { env1 with secGroups := env1.secGroups ++ [⟨sgId, vpcId, groupName, [], []⟩] }
    .createSgCall)

/-- `authorize_security_group_ingress` for the Neptune port. -/
def authIngress (env : Env) (sgId : String) (port : Int) : Env :=
  logE { env with secGroups := env.secGroups.map (fun g =>
    if g.id == sgId then { g with ingressPorts := g.ingressPorts ++ [port] } else g) }
    .authIngressCall

/-- `authorize_security_group_egress` for all protocols. -/
def authEgress (env : Env) (sgId : String) : Env :=
  logE { env with secGroups := env.secGroups.map (fun g =>
    if g.id == sgId then { g with egressProtocols := g.egressProtocols ++ ["-1"] } else g) }
    .authEgressCall

/-- `allocate_address(Domain='vpc')`. -/
def allocateAddress (env : Env) : String × Env :=
  let (allocId, env1) := fresh env "eipalloc-"
  (allocId, logE { env1 with eips := env1.eips ++ [allocId] } .allocateAddressCall)

/-- `create_nat_gateway` in the given subnet (the record carries the VPC
of that subnet, the way the control plane does). -/
def createNat (env : Env) (subnetId allocId nameTag : String) : String × Env :=
  let vpcOfSubnet := ((env.subnets.find? (fun s => s.id == subnetId)).map
    (fun s => s.vpcId)).getD ""
  let _ := allocId
  let (natId, env1) := fresh env "nat-"
  (natId, logE { env1 with natGws := env1.natGws ++ [⟨natId, vpcOfSubnet, subnetId, "pending", nameTag⟩] }
    .createNatCall)

/-- The `nat_gateway_available` waiter, modelled as the NAT gateway
converging to `available`. -/
def natWait (env : Env) (natId : String) : Env :=
  { env with natGws := env.natGws.map (fun n =>
    if n.id == natId then { n with state := "available" } else n) }

/-- `create_internet_gateway`. -/
def createIgw (env : Env) : String × Env :=
  let (igwId, env1) := fresh env "igw-"
  (igwId, logE { env1 with igws := env1.igws ++ [⟨igwId, none⟩] } .createIgwCall)

/-- `attach_internet_gateway`. -/
def attachIgw (env : Env) (igwId vpcId : String) : Env :=
  logE { env with igws := env.igws.map (fun g =>
    if g.id == igwId then { g with attached := some vpcId } else g) }
    .attachIgwCall

/-- `create_subnet` with a `Name` tag. -/
def createSubnet (env : Env) (vpcId cidr az nameTag : String) : String × Env :=
  let (sid, env1) := fresh env "subnet-"
  (sid, logE { env1 with subnets := env1.subnets ++ [⟨sid, vpcId, nameTag, az, cidr, false⟩] }
    .createSubnetCall)

/-- `modify_subnet_attribute(..., MapPublicIpOnLaunch={'Value': True})`. -/
def modifySubnetAttr (env : Env) (sid : String) : Env :=
  logE { env with subnets := env.subnets.map (fun s =>
    if s.id == sid then { s with mapPublicIp := true } else s) }
    .modifySubnetAttrCall

/-- Public-subnet arm of the `_fix_routing_tables` loop (vpc.py lines
178-217): create a route table with an internet-gateway default route if
the subnet has none associated, else add the missing default route. -/
def fixPublicSubnet (igwId vpcId subnetId : String) (env : Env) : Env :=
  match rtsBySubnetAssoc env subnetId with
  | [] =>
    let (rtId, env1) := createRouteTable env vpcId
    let env2 := createRoute env1 rtId (some igwId) none
    associateRt env2 rtId subnetId
  | rt :: _ =>
    if rt.routes.any (fun r => r.destCidr == "0.0.0.0/0" && r.gatewayId == some igwId) then env
    else createRoute env rt.id (some igwId) none

/-- Private-subnet arm of the `_fix_routing_tables` loop (vpc.py lines
224-263), with the NAT-gateway default route. -/
def fixPrivateSubnet (natId vpcId subnetId : String) (env : Env) : Env :=
  match rtsBySubnetAssoc env subnetId with
  | [] =>
    let (rtId, env1) := createRouteTable env vpcId
    let env2 := createRoute env1 rtId none (some natId)
    associateRt env2 rtId subnetId
  | rt :: _ =>
    if rt.routes.any (fun r => r.destCidr == "0.0.0.0/0" && r.natId == some natId) then env
    else createRoute env rt.id none (some natId)

/-- `_fix_routing_tables` (vpc.py lines 154-269).  Indexing `[0]` into an
empty describe result raises, and the `except` arm turns that into
`False` while keeping the mutations already made. -/
def fixRoutingTables (clusterName vpcId : String) (env : Env) : Bool × Env :=
  let pubs := subnetsByTag env vpcId [clusterName ++ "-public-*"]
  let privs := subnetsByTag env vpcId [clusterName ++ "-private-*"]
  match igwsAttached env vpcId with
  | [] => (false, env)
  | igw :: _ =>
    let envPub := pubs.foldl (fun e s => fixPublicSubnet igw.id vpcId s.id e) env
    match natsByVpc envPub vpcId with
    | [] => (false, envPub)
    | nat :: _ =>
      (true, privs.foldl (fun e s => fixPrivateSubnet nat.id vpcId s.id e) envPub)

/-- `_fix_vpc_config` (vpc.py lines 27-113): enable DNS hostnames if
disabled; ensure an `available` NAT gateway exists (allocating an EIP and
creating one in the first public subnet when not, `False` when no public
subnet exists); ensure an internet gateway is attached; then run
`_fix_routing_tables`, whose return value the source ignores. -/
def fixVpcConfig (clusterName vpcId : String) (env : Env) : Bool × Env :=
  match env.vpcs.find? (fun v => v.id == vpcId) with
  | none => (false, env)
  | some v =>
    let env1 := if v.dns then env
      else logE (updateVpc env vpcId (fun v => { v with dns := true })) .modifyVpcAttrCall
    let natStep : Bool × Env :=
      match (natsByVpc env1 vpcId).find? (fun n => n.state == "available") with
      | some _ => (true, env1)
      | none =>
        match subnetsByTag env1 vpcId [clusterName ++ "-public-*"] with
        | [] => (false, env1)
        | s :: _ =>
          let (allocId, env2) := allocateAddress env1
          let (natId, env3) := createNat env2 s.id allocId (clusterName ++ "-nat")
          (true, natWait env3 natId)
    let env3 :=
      match igwsAttached natStep.2 vpcId with
      | [] =>
        let (igwId, e1) := createIgw natStep.2
        attachIgw e1 igwId vpcId
      | _ => natStep.2
    (natStep.1, (fixRoutingTables clusterName vpcId env3).2)

/-- `_find_existing_vpc` (vpc.py lines 328-465).  Discovery filters on the
hard-coded tag values `test-graph-rag-benchmark-vpc`,
`test-graph-rag-benchmark-private-1/2` and the group name
`test-graph-rag-benchmark-sg` — not on `self.cluster_name`. -/
def findExistingVpc (clusterName : String) (env : Env) :
    Option (String × List String × String) × Env :=
  match env.vpcs.filter (fun v => v.nameTag == "test-graph-rag-benchmark-vpc") with
  | [] => (none, env)
  | vpc :: _ =>
    match fixVpcConfig clusterName vpc.id env with
    | (false, env1) => (none, env1)
    | (true, env1) =>
      let subs := env1.subnets.filter (fun s => s.vpcId == vpc.id &&
        (s.nameTag == "test-graph-rag-benchmark-private-1" ||
         s.nameTag == "test-graph-rag-benchmark-private-2"))
      if subs.length < 2 then (none, env1)
      else
        let privIds := subs.map (fun s => s.id)
        match env1.secGroups.filter (fun g => g.vpcId == vpc.id &&
          g.groupName == "test-graph-rag-benchmark-sg") with
        | sg :: _ => (some (vpc.id, privIds, sg.id), env1)
        | [] =>
          let (sgId, env2) := createSecurityGroup env1 "test-graph-rag-benchmark-sg" vpc.id
          let env3 := authIngress env2 sgId 8182
          (some (vpc.id, privIds, sgId), authEgress env3 sgId)

/-- `create_vpc` (vpc.py lines 467-656): reuse `_find_existing_vpc` when it
yields a topology, otherwise create the network from scratch — VPC, DNS
attribute, internet gateway, one public and one private subnet per zone
over the first two availability zones, EIP + NAT gateway (waited on),
public and private route tables, security group with its two rules.
Returns `(vpc_id, private_subnet_ids, security_group_id)`. -/
def createVpc (clusterName : String) (env : Env) :
    Except String (String × List String × String) × Env :=
  match findExistingVpc clusterName env with
  | (some t, env1) => (.ok t, env1)
  | (none, env1) =>
    let (vpcId, e1) := fresh env1 "vpc-"
    let e2 := logE { e1 with vpcs := e1.vpcs ++ [⟨vpcId, clusterName ++ "-vpc", false⟩] }
      .createVpcCall
    let e3 := logE (updateVpc e2 vpcId (fun v => { v with dns := true })) .modifyVpcAttrCall
    let (igwId, e4) := createIgw e3
    let e5 := attachIgw e4 igwId vpcId
    let subnetStep := fun (acc : List String × List String × Env) (p : Nat × String) =>
      let (pubIds, privIds, e) := acc
      let (i, az) := p
      let (pubId, s1) := createSubnet e vpcId ("10.0." ++ toString (i * 2) ++ ".0/24") az
        (clusterName ++ "-public-" ++ toString (i + 1))
      let s2 := modifySubnetAttr s1 pubId
      let (privId, s3) := createSubnet s2 vpcId ("10.0." ++ toString (i * 2 + 1) ++ ".0/24") az
        (clusterName ++ "-private-" ++ toString (i + 1))
      (pubIds ++ [pubId], privIds ++ [privId], s3)
    let built := (e5.azs.take 2).enum.foldl subnetStep ([], [], e5)
    let pubIds := built.1
    let privIds := built.2.1
    let e6 := built.2.2
    let (allocId, e7) := allocateAddress e6
    match pubIds with
    | [] => (.error "list index out of range", e7)
    | pubId0 :: _ =>
      let (natId, e8) := createNat e7 pubId0 allocId (clusterName ++ "-nat")
      let e9 := natWait e8 natId
      let (pubRtId, e10) := createRouteTable e9 vpcId
      let e11 := createRoute e10 pubRtId (some igwId) none
      let e12 := pubIds.foldl (fun e sid => associateRt e pubRtId sid) e11
      let (privRtId, e13) := createRouteTable e12 vpcId
      let e14 := createRoute e13 privRtId none (some natId)
      let e15 := privIds.foldl (fun e sid => associateRt e privRtId sid) e14
      let (sgId, e16) := createSecurityGroup e15 (clusterName ++ "-sg") vpcId
      let e17 := authIngress e16 sgId 8182
      (.ok (vpcId, privIds, sgId), authEgress e17 sgId)

/-- An EC2 state with no resources, two availability zones, and an empty log. -/
def emptyEnv : Env :=
  ⟨[], [], [], [], [], [], [], ["us-west-2a", "us-west-2b"], 0, []⟩

/-- First `create_vpc` run for cluster name `bench` on an empty account. -/
def benchRun1 : Except String (String × List String × String) × Env :=
  createVpc "bench" emptyEnv

/-- Second `create_vpc` run for cluster name `bench`, right after the first. -/
def benchRun2 : Except String (String × List String × String) × Env :=
  createVpc "bench" benchRun1.2

/-- First `create_vpc` run for the hard-coded discovery name. -/
def canonRun1 : Except String (String × List String × String) × Env :=
  createVpc "test-graph-rag-benchmark" emptyEnv

/-- Second `create_vpc` run for the hard-coded discovery name. -/
def canonRun2 : Except String (String × List String × String) × Env :=
  createVpc "test-graph-rag-benchmark" canonRun1.2

end VPC

namespace Retry

/-- A concrete operation that fails once with a non-transient error, then
succeeds. -/
def opOneValueError : Nat → Except String Nat :=
  fun i => if i = 0 then .error "ValueError: bad input" else .ok 42

/-- A concrete operation that is throttled on its first invocation and
succeeds on the second. -/
def opThrottleOnce : Nat → Except String Nat :=
  fun i => if i = 0 then .error "ThrottlingException" else .ok 7

/-- A concrete operation that always fails. -/
def opAlwaysFails : Nat → Except String Nat :=
  fun i => .error ("ConnectionError " ++ toString i)

/-- A concrete jitter draw of one half on every attempt. -/
def jitHalf : Nat → ℚ := fun _ => 1 / 2

/-- A concrete jitter draw of zero on every attempt. -/
def jitZero : Nat → ℚ := fun _ => 0

end Retry

namespace Graph

/-- A concrete attempt sequence that never succeeds, opening a transport
on every second attempt. -/
def attAllFail : Nat → Attempt :=
  fun i => if i % 2 = 0 then .failConnect ("refused " ++ toString i)
    else .failAfterOpen ("handshake " ++ toString i)

end Graph

namespace Neptune

/-- A fresh `NeptuneManager` state: every tracked field still `None`. -/
def mgr0 : Mgr := ⟨none, none, none, none, [], none⟩

/-- A control plane with no cluster, one security group and two subnets in
the same VPC, and converging creation futures. -/
def envOk : NepEnv :=
  ⟨[], [], [], [], [("sg-1", "vpc-1")], [("sub-1", "vpc-1"), ("sub-2", "vpc-1")],
   ["creating", "available"], ["creating", "available"], [true], []⟩

/-- Like `envOk` but the security group lives in a different VPC than the
subnets. -/
def envMismatch : NepEnv :=
  ⟨[], [], [], [], [("sg-1", "vpc-2")], [("sub-1", "vpc-1"), ("sub-2", "vpc-1")],
   ["available"], ["available"], [true], []⟩

/-- A control plane with an `available` cluster named `bench` and one
`available` instance attached to it. -/
def envExisting : NepEnv :=
  ⟨[⟨"bench", "available", [], "ep.bench", true, "bench-params"⟩],
   [⟨"bench-instance", "bench", "available", []⟩], ["bench-params"], [], [], [],
   [], [], [true], []⟩

/-- The `create_cluster` run on `envOk`. -/
def envOkRun : Except String String × NepEnv × Mgr :=
  createCluster "bench" ["sub-1", "sub-2"] (some "sg-1") none envOk mgr0

/-- The `setup_cluster` run on `envExisting`. -/
def envExistingRun : Except String String × NepEnv × Mgr :=
  setupCluster "bench" envExisting mgr0

/-- The usability invariant of the spec data model: the named cluster is
`available` and at least one attached instance is `available`. -/
def usable (env : NepEnv) (n : String) : Prop :=
  (∃ c ∈ env.clusters, c.id = n ∧ c.status = "available") ∧
  (∃ i ∈ env.instances, i.clusterId = n ∧ i.status = "available")

/-- An empty Neptune control plane. -/
def envAbsent : NepEnv := ⟨[], [], [], [], [], [], [], [], [], []⟩

end Neptune

namespace OpenSearch

/-- A snapshot of a domain that is being deleted (`Deleted` flag set,
`Processing` already cleared). -/
def snapDeleting : Snap := ⟨true, false, some "old-ep", some "OpenSearch_2.3", "d-old"⟩

/-- A snapshot of a healthy active domain. -/
def snapActive : Snap := ⟨false, false, some "new-ep", some "OpenSearch_2.3", "d-new"⟩

/-- The snapshot `create_domain` returns right after creation. -/
def snapCreating : Snap := ⟨false, true, none, some "OpenSearch_2.3", "d-new"⟩

/-- A control plane whose first describe shows a domain in deleting state;
after a `create_domain` the describes show the new healthy domain. -/
def envDeleting : OSEnv :=
  ⟨[some snapDeleting], [some snapActive, some snapActive], some snapCreating,
   true, [true], none, []⟩

/-- A control plane with a healthy reusable domain. -/
def envReuse : OSEnv := ⟨[some snapActive], [], none, true, [true], none, []⟩

/-- A control plane with no domain at all. -/
def envGone : OSEnv := ⟨[], [], none, false, [], none, []⟩

end OpenSearch

namespace NepUtils

/-- A manager that tracked resources in an earlier, partially torn-down
run: all of them are gone from the control plane by now, including the
already-released elastic IP. -/
def mgrStale : UMgr := ⟨true, some "i-1", some "c-1", some "vpc-1", some "eipalloc-9"⟩

/-- A control plane where only the VPC shell is left. -/
def envStale : UEnv := ⟨[], [], [], [], [], [], ["vpc-1"], [], [], [], [], []⟩

end NepUtils

/-!
## Theorems

One theorem per claim of the specification, preceded by the helper lemmas
it needs.  Corrected claims come with a concrete counterexample theorem
and a theorem for the amended statement.
-/

/-- Claim C1, counterexample: network provisioning is not idempotent for
every cluster name.  With cluster name `bench` on an empty account, the
first `VPCManager.create_vpc` run returns the network `vpc-0`; the second
run, instead of reusing it, issues another `create_vpc` control-plane
call (the log count rises by one) and returns a distinct topology
`vpc-11` with fresh subnet and security-group ids, because
`_find_existing_vpc` discovers only networks tagged
`test-graph-rag-benchmark-vpc`, not `bench-vpc`. -/
theorem c1_counterexample_not_idempotent_for_bench :
    VPC.benchRun1.1 = .ok ("vpc-0", ["subnet-3", "subnet-5"], "sg-10") ∧
    VPC.benchRun2.1 = .ok ("vpc-11", ["subnet-14", "subnet-16"], "sg-21") ∧
    VPC.benchRun2.2.log.count VPC.ECall.createVpcCall =
      VPC.benchRun1.2.log.count VPC.ECall.createVpcCall + 1 :=
  ⟨rfl, rfl, rfl⟩

/-- Claim C1, amended: idempotence of `VPCManager.create_vpc` holds for
the one cluster name the hard-coded discovery tag matches,
`test-graph-rag-benchmark`.  There the second run returns a topology with
exactly the identities the first run created and issues no mutating EC2
call at all (the call log is unchanged). -/
theorem c1_amended_idempotent_for_discovery_name :
    VPC.canonRun1.1 = .ok ("vpc-0", ["subnet-3", "subnet-5"], "sg-10") ∧
    VPC.canonRun2.1 = .ok ("vpc-0", ["subnet-3", "subnet-5"], "sg-10") ∧
    VPC.canonRun2.2.log = VPC.canonRun1.2.log := by
  refine ⟨rfl, by decide, by decide⟩

/-- Claim C3, counterexample: `_invoke_with_retry` does not let
non-transient errors through immediately.  With the default
`max_retries = 5`, an operation whose first invocation raises a
non-transient `ValueError` is invoked a second time after one backoff
sleep, and the run returns the second invocation's success value — the
error was retried, not propagated, the operation ran twice, and one sleep
happened. -/
theorem c3_counterexample_value_error_is_retried :
    (Retry.invokeWithRetry Retry.opOneValueError Retry.jitZero 1 60 5).outcome = .ok 42 ∧
    (Retry.invokeWithRetry Retry.opOneValueError Retry.jitZero 1 60 5).calls = 2 ∧
    (Retry.invokeWithRetry Retry.opOneValueError Retry.jitZero 1 60 5).sleeps.length = 1 := by
  refine ⟨by decide, by decide, by decide⟩

/-- Claim C6, counterexample: `setup_domain` does not block until a
deleting domain is gone.  On `envDeleting`, whose first describe shows a
domain with the `Deleted` flag set (and `Processing` false), the call log
of the run starts with the describe followed immediately by
`create_domain`: the creation call is issued while the old domain still
exists in deleting state, with no wait for its absence in between. -/
theorem c6_counterexample_create_issued_while_deleting :
    (OpenSearch.setupDomain OpenSearch.envDeleting).2.log.take 2 =
      [OpenSearch.OCall.describeDomainC, OpenSearch.OCall.createDomainC] ∧
    OpenSearch.envDeleting.timeline.head? = some (some OpenSearch.snapDeleting) ∧
    OpenSearch.snapDeleting.deleted = true ∧
    (OpenSearch.setupDomain OpenSearch.envDeleting).1 = .ok "new-ep" :=
  ⟨rfl, rfl, rfl, rfl⟩

/-- Claim C8, counterexample: teardown does not treat every "not found"
delete response as success.  Re-invoking the neptune_utils teardown after
a partial earlier run (`mgrStale` still tracks instance, cluster, VPC and
elastic IP, all of which are gone except the VPC shell) swallows the
not-found responses of the instance, cluster, parameter-group and
subnet-group deletes, but the not-found from `release_address` inside
`_cleanup_vpc` propagates and the teardown raises instead of
completing. -/
theorem c8_counterexample_stale_eip_aborts_teardown :
    (NepUtils.cleanupU "bench" NepUtils.mgrStale NepUtils.envStale).1 =
      .error "InvalidAllocationID.NotFound" ∧
    (NepUtils.cleanupU "bench" NepUtils.mgrStale NepUtils.envStale).2.log =
      [NepUtils.UCall.deleteDbInstanceU, NepUtils.UCall.deleteDbClusterU,
       NepUtils.UCall.deleteParamGroupU, NepUtils.UCall.deleteSubnetGroupU,
       NepUtils.UCall.releaseAddressU] :=
  ⟨rfl, rfl⟩

/-- Claim C7: with the authorization flag `cleanup_enabled` false, both
teardown operations (`NeptuneManager.cleanup` of cluster.py and
`OpenSearchManager.cleanup`) return immediately as no-ops: no delete call
is issued and the control-plane state — call log included — is returned
unchanged, for every cluster name, manager state and environment. -/
theorem c7_teardown_gating (clusterName : String) (nenv : Neptune.NepEnv)
    (mgr : Neptune.Mgr) (oenv : OpenSearch.OSEnv) :
    Neptune.cleanup clusterName false nenv mgr = (.ok (), nenv) ∧
    OpenSearch.cleanup false oenv = (.ok (), oenv) :=
  ⟨rfl, rfl⟩

/-- Helper: when the first `k` invocations starting at loop index `a` fail
and invocation `a + k` succeeds, the retry loop returns the success value
after `k + 1` invocations, having slept the `k` backoff delays of the
failed attempts. -/
theorem retry_go_spec {A : Type} (op : Nat → Except String A) (jit : Nat → ℚ)
    (minD maxD : ℚ) (v : A) :
    ∀ (k a r : Nat), k < r →
      (∀ i, i < k → ∃ e, op (a + i) = .error e) →
      op (a + k) = .ok v →
      Retry.invokeWithRetryGo op jit minD maxD r a =
        ⟨.ok v, (List.range k).map (fun i => Retry.delayAt jit minD maxD (a + i)), k + 1⟩ := by
  intro k
  induction k with
  | zero =>
    intro a r hr _ hsucc
    obtain ⟨r', rfl⟩ : ∃ r', r = r' + 1 := ⟨r - 1, by omega⟩
    rw [Nat.add_zero] at hsucc
    simp [Retry.invokeWithRetryGo, hsucc]
  | succ k ih =>
    intro a r hr hfail hsucc
    obtain ⟨r', rfl⟩ : ∃ r', r = r' + 1 := ⟨r - 1, by omega⟩
    obtain ⟨e, he⟩ := hfail 0 (Nat.succ_pos k)
    rw [Nat.add_zero] at he
    have hr'0 : ¬ r' = 0 := by omega
    have ihres := ih (a + 1) r' (by omega)
      (fun i hi => by
        have h := hfail (i + 1) (by omega)
        rwa [show a + (i + 1) = a + 1 + i by omega] at h)
      (by rwa [show a + (k + 1) = a + 1 + k by omega] at hsucc)
    simp only [Retry.invokeWithRetryGo, he, hr'0, if_false, ihres]
    congr 1
    rw [List.range_succ_eq_map, List.map_cons, List.map_map]
    refine congrArg₂ List.cons rfl (List.map_congr_left fun i hi => ?_)
    simp only [Function.comp_apply]
    congr 1
    omega

/-- Helper: a map of an adjacent-monotone function over `List.range` is a
non-decreasing chain. -/
theorem chain_map_range_of_adjacent (f : Nat → ℚ) (hf : ∀ i, f i ≤ f (i + 1)) (k : Nat) :
    List.Chain' (· ≤ ·) ((List.range k).map f) := by
  rw [List.chain'_map]
  cases k with
  | zero => simp
  | succ n => exact (List.chain'_range_succ _ n).mpr fun m _ => hf m

/-- Helper: with `min_delay = 1` and jitter drawn from `[0, 1]`, the
backoff delay of the retry loop is adjacent-monotone. -/
theorem delayAt_adjacent_mono (jit : Nat → ℚ) (maxD : ℚ)
    (hjit : ∀ i, 0 ≤ jit i ∧ jit i ≤ 1) (i : Nat) :
    Retry.delayAt jit 1 maxD i ≤ Retry.delayAt jit 1 maxD (i + 1) := by
  unfold Retry.delayAt
  refine min_le_min le_rfl ?_
  have h1 : (1 : ℚ) ≤ 2 ^ i := by
    calc (1 : ℚ) = 1 ^ i := (one_pow i).symm
    _ ≤ 2 ^ i := by
      refine pow_le_pow_left₀ ?_ ?_ i <;> norm_num
  have h2 : (2 : ℚ) ^ (i + 1) = 2 ^ i * 2 := pow_succ 2 i
  have hj1 := (hjit i).2
  have hj2 := (hjit (i + 1)).1
  nlinarith

/-- Claim C2: if the wrapped operation fails on its first `k` invocations
(`k < max_retries`) and succeeds on invocation `k + 1`, then with the
default `min_delay = 1` the retry loop of `_invoke_with_retry` returns
the success value, invokes the operation exactly `k + 1` times, and the
delays slept between consecutive attempts are exactly
`min(max_delay, min_delay * 2 ** attempt + jitter)` for attempts
`0, ..., k - 1`; with the jitter drawn from `[0, 1]` that delay sequence
is monotonically non-decreasing. -/
theorem c2_retry_bound_and_monotone_delays {A : Type} (op : Nat → Except String A)
    (jit : Nat → ℚ) (maxD : ℚ) (maxRetries k : Nat) (v : A)
    (hk : k < maxRetries)
    (hfail : ∀ i, i < k → ∃ e, op i = .error e)
    (hsucc : op k = .ok v)
    (hjit : ∀ i, 0 ≤ jit i ∧ jit i ≤ 1) :
    (Retry.invokeWithRetry op jit 1 maxD maxRetries).outcome = .ok v ∧
    (Retry.invokeWithRetry op jit 1 maxD maxRetries).calls = k + 1 ∧
    (Retry.invokeWithRetry op jit 1 maxD maxRetries).sleeps =
      (List.range k).map (fun i => Retry.delayAt jit 1 maxD i) ∧
    List.Chain' (· ≤ ·) (Retry.invokeWithRetry op jit 1 maxD maxRetries).sleeps := by
  have hgo := retry_go_spec op jit 1 maxD v k 0 maxRetries hk
    (fun i hi => by simpa using hfail i hi) (by simpa using hsucc)
  rw [Retry.invokeWithRetry, hgo]
  refine ⟨rfl, rfl, by simp, ?_⟩
  simpa using chain_map_range_of_adjacent (Retry.delayAt jit 1 maxD)
    (delayAt_adjacent_mono jit maxD hjit) k

/-- Witness for C2: the throttle-once operation with `max_retries = 5`
succeeds on its second invocation after one sleep. -/
theorem c2_witness :
    (Retry.invokeWithRetry Retry.opThrottleOnce Retry.jitHalf 1 60 5).outcome = .ok 7 ∧
    (Retry.invokeWithRetry Retry.opThrottleOnce Retry.jitHalf 1 60 5).calls = 2 ∧
    (Retry.invokeWithRetry Retry.opThrottleOnce Retry.jitHalf 1 60 5).sleeps.length = 1 := by
  have h := c2_retry_bound_and_monotone_delays Retry.opThrottleOnce Retry.jitHalf 60 5 1 7
    (by decide)
    (fun i hi => ⟨"ThrottlingException", by
      simp [Retry.opThrottleOnce, show i = 0 by omega]⟩)
    (by decide)
    (fun i => by constructor <;> norm_num [Retry.jitHalf])
  exact ⟨h.1, h.2.1, by rw [h.2.2.1]; simp⟩

/-- Helper: when every invocation up to the retry bound fails, the retry
loop re-raises the error of the final attempt after exactly `r`
invocations and `r - 1` sleeps. -/
theorem retry_go_allfail {A : Type} (op : Nat → Except String A) (jit : Nat → ℚ)
    (minD maxD : ℚ) :
    ∀ (r a : Nat), 0 < r →
      (∀ i, i < r → ∃ e, op (a + i) = .error e) →
      ∃ e, op (a + (r - 1)) = .error e ∧
        Retry.invokeWithRetryGo op jit minD maxD r a =
          ⟨.error e, (List.range (r - 1)).map (fun i => Retry.delayAt jit minD maxD (a + i)),
           r⟩ := by
  intro r
  induction r with
  | zero => intro a h; omega
  | succ r' ih =>
    intro a _ hfail
    obtain ⟨e0, he0⟩ := hfail 0 (Nat.succ_pos r')
    rw [Nat.add_zero] at he0
    by_cases hr0 : r' = 0
    · subst hr0
      exact ⟨e0, by simpa using he0, by simp [Retry.invokeWithRetryGo, he0]⟩
    · obtain ⟨e, he, hrec⟩ := ih (a + 1) (by omega)
        (fun i hi => by
          have h := hfail (i + 1) (by omega)
          rwa [show a + (i + 1) = a + 1 + i by omega] at h)
      refine ⟨e, ?_, ?_⟩
      · rwa [show a + (r' + 1 - 1) = a + 1 + (r' - 1) by omega]
      · simp only [Retry.invokeWithRetryGo, he0, hr0, if_false, hrec]
        congr 1
        rw [show r' + 1 - 1 = (r' - 1) + 1 by omega,
          List.range_succ_eq_map, List.map_cons, List.map_map]
        refine congrArg₂ List.cons rfl (List.map_congr_left fun i hi => ?_)
        simp only [Function.comp_apply]
        congr 1
        omega

/-- Claim C3, amended: `_invoke_with_retry` never classifies errors — an
error raised by the first invocation, transient or not, is retried just
like any other.  An error propagates out only when every invocation up to
`max_retries` fails, and then it is the final attempt's error, raised
after exactly `max_retries` invocations and `max_retries - 1` backoff
sleeps (an error on the first invocation therefore propagates immediately
only in the degenerate configuration `max_retries = 1`). -/
theorem c3_amended_all_errors_retried {A : Type} (op : Nat → Except String A)
    (jit : Nat → ℚ) (minD maxD : ℚ) (maxRetries : Nat)
    (hpos : 0 < maxRetries)
    (hfail : ∀ i, i < maxRetries → ∃ e, op i = .error e) :
    ∃ e, op (maxRetries - 1) = .error e ∧
      Retry.invokeWithRetry op jit minD maxD maxRetries =
        ⟨.error e,
         (List.range (maxRetries - 1)).map (fun i => Retry.delayAt jit minD maxD i),
         maxRetries⟩ := by
  have h := retry_go_allfail op jit minD maxD maxRetries 0 hpos
    (fun i hi => by simpa using hfail i hi)
  simpa [Retry.invokeWithRetry] using h

/-- Witness for the amended C3: an operation that always fails, run with
`max_retries = 2`, has its second error re-raised after two invocations
and one sleep. -/
theorem c3_amended_witness :
    (Retry.invokeWithRetry Retry.opAlwaysFails Retry.jitZero 1 60 2).outcome =
      .error "ConnectionError 1" ∧
    (Retry.invokeWithRetry Retry.opAlwaysFails Retry.jitZero 1 60 2).calls = 2 ∧
    (Retry.invokeWithRetry Retry.opAlwaysFails Retry.jitZero 1 60 2).sleeps.length = 1 := by
  obtain ⟨e, he, hrun⟩ := c3_amended_all_errors_retried Retry.opAlwaysFails Retry.jitZero 1 60 2
    (by decide)
    (fun i _ => ⟨"ConnectionError " ++ toString i, rfl⟩)
  have he' : e = "ConnectionError 1" := by
    have h2 : Retry.opAlwaysFails (2 - 1) = .error "ConnectionError 1" := rfl
    rw [h2] at he
    exact (Except.error.injEq _ _).mp he.symm
  rw [hrun, he']
  exact ⟨rfl, rfl, by simp⟩

/-- Helper: when every connection attempt from loop index `a` on fails,
the connection loop raises a `ConnectionError` chained to the final
attempt's error, after sleeping the capped exponential delays of all but
the last attempt and closing the transport of every attempt that had
opened one. -/
theorem connect_go_allfail (att : Nat → Graph.Attempt) (rd : ℚ) (total : Nat) :
    ∀ (r a : Nat), 0 < r →
      (∀ i, i < r → (att (a + i)).isFail = true) →
      Graph.connectGo att rd total r a =
        ⟨.error ("Failed to connect to Neptune after " ++ toString total ++ " attempts",
           some ((att (a + r - 1)).errMsg)),
         (List.range' a (r - 1)).map (fun j => min 60 (rd * 2 ^ j)),
         (List.range' a r).filter (fun j => (att j).opened)⟩ := by
  intro r
  induction r with
  | zero => intro a h; omega
  | succ r' ih =>
    intro a _ hfail
    have hf0 := hfail 0 (Nat.succ_pos r')
    rw [Nat.add_zero] at hf0
    by_cases hr0 : r' = 0
    · subst hr0
      cases h : att a with
      | success => rw [h] at hf0; simp [Graph.Attempt.isFail] at hf0
      | failConnect e =>
        simp [Graph.connectGo, h, List.range'_succ, List.filter,
          Graph.Attempt.opened, Graph.Attempt.errMsg]
      | failAfterOpen e =>
        simp [Graph.connectGo, h, List.range'_succ, List.filter,
          Graph.Attempt.opened, Graph.Attempt.errMsg]
    · have hrec := ih (a + 1) (by omega)
        (fun i hi => by
          have h := hfail (i + 1) (by omega)
          rwa [show a + (i + 1) = a + 1 + i by omega] at h)
      have hidx : a + 1 + r' - 1 = a + (r' + 1) - 1 := by omega
      have hsleeps :
          min 60 (rd * 2 ^ a) :: (List.range' (a + 1) (r' - 1)).map (fun j => min 60 (rd * 2 ^ j)) =
          (List.range' a (r' + 1 - 1)).map (fun j => min 60 (rd * 2 ^ j)) := by
        rw [show r' + 1 - 1 = (r' - 1) + 1 by omega, List.range'_succ, List.map_cons]
      have hrange : List.range' a (r' + 1) = a :: List.range' (a + 1) r' :=
        List.range'_succ a r' 1
      cases h : att a with
      | success => rw [h] at hf0; simp [Graph.Attempt.isFail] at hf0
      | failConnect e =>
        simp only [Graph.connectGo, h, hr0, if_false, hrec, hidx, hsleeps, hrange]
        simp [List.filter, h, Graph.Attempt.opened]
      | failAfterOpen e =>
        simp only [Graph.connectGo, h, hr0, if_false, hrec, hidx, hsleeps, hrange]
        simp [List.filter, h, Graph.Attempt.opened]

/-- Claim C9: if every one of the `max_retries` connection attempts of
`NeptuneGraph._connect_with_retries` fails, the method raises a
`ConnectionError` whose chained cause is the last attempt's underlying
failure, after sleeping `min(60, retry_delay * 2 ** attempt)` between
consecutive attempts and closing the partially-opened transport of every
attempt that had opened one. -/
theorem c9_connect_retry_exhaustion (att : Nat → Graph.Attempt) (rd : ℚ)
    (maxRetries : Nat) (hpos : 0 < maxRetries)
    (hfail : ∀ i, i < maxRetries → (att i).isFail = true) :
    Graph.connectWithRetries att rd maxRetries =
      ⟨.error ("Failed to connect to Neptune after " ++ toString maxRetries ++ " attempts",
         some ((att (maxRetries - 1)).errMsg)),
       (List.range (maxRetries - 1)).map (fun j => min 60 (rd * 2 ^ j)),
       (List.range maxRetries).filter (fun j => (att j).opened)⟩ := by
  have h := connect_go_allfail att rd maxRetries maxRetries 0 hpos
    (fun i hi => by simpa using hfail i hi)
  rw [Graph.connectWithRetries, h]
  simp [List.range_eq_range']

/-- Witness for C9: two attempts, the first refused before opening a
transport, the second failing after opening one — the raised error chains
the second failure, one capped delay was slept, and exactly the opening
attempt's transport was closed. -/
theorem c9_witness :
    (Graph.connectWithRetries Graph.attAllFail 1 2).outcome =
      .error ("Failed to connect to Neptune after 2 attempts", some "handshake 1") ∧
    (Graph.connectWithRetries Graph.attAllFail 1 2).sleeps.length = 1 ∧
    (Graph.connectWithRetries Graph.attAllFail 1 2).closes = [1] := by
  have h := c9_connect_retry_exhaustion Graph.attAllFail 1 2 (by decide) (by decide)
  rw [h]
  refine ⟨?_, ?_, ?_⟩
  · rfl
  · simp
  · decide

/-- Helper: discovery finds nothing when no cluster of that name exists
(`DBClusterNotFoundFault` is caught and turned into `None`). -/
theorem findExistingCluster_absent (n : String) (env : Neptune.NepEnv) (mgr : Neptune.Mgr)
    (h : Neptune.describeCluster env n = none) :
    Neptune.findExistingCluster n env mgr = (.ok none, env, mgr) := by
  simp [Neptune.findExistingCluster, h]

/-- Helper: logging a call changes only the log. -/
theorem logCall_sgVpc (e : Neptune.NepEnv) (c : Neptune.NCall) :
    (Neptune.logCall e c).sgVpc = e.sgVpc := rfl

/-- Helper: logging a call changes only the log. -/
theorem logCall_subnetVpc (e : Neptune.NepEnv) (c : Neptune.NCall) :
    (Neptune.logCall e c).subnetVpc = e.subnetVpc := rfl

/-- Helper: logging a call appends it to the log. -/
theorem logCall_log (e : Neptune.NepEnv) (c : Neptune.NCall) :
    (Neptune.logCall e c).log = e.log ++ [c] := rfl

/-- Helper: the parameter-group create call touches neither VPC mapping. -/
theorem createParameterGroup_sgVpc (n : String) (e : Neptune.NepEnv) :
    (Neptune.createParameterGroup n e).sgVpc = e.sgVpc := by
  simp only [Neptune.createParameterGroup, Neptune.logCall]
  split <;> rfl

/-- Helper: the parameter-group create call touches neither VPC mapping. -/
theorem createParameterGroup_subnetVpc (n : String) (e : Neptune.NepEnv) :
    (Neptune.createParameterGroup n e).subnetVpc = e.subnetVpc := by
  simp only [Neptune.createParameterGroup, Neptune.logCall]
  split <;> rfl

/-- Helper: the parameter-group create call appends exactly its log entry. -/
theorem createParameterGroup_log (n : String) (e : Neptune.NepEnv) :
    (Neptune.createParameterGroup n e).log = e.log ++ [Neptune.NCall.createParamGroupC] := by
  simp only [Neptune.createParameterGroup, Neptune.logCall]
  split <;> rfl

/-- Helper: the parameter-group create call keeps the subnet groups. -/
theorem createParameterGroup_subnetGroups (n : String) (e : Neptune.NepEnv) :
    (Neptune.createParameterGroup n e).subnetGroups = e.subnetGroups := by
  simp only [Neptune.createParameterGroup, Neptune.logCall]
  split <;> rfl

/-- Helper: security-group lookup only reads the `sgVpc` mapping. -/
theorem lookupSgVpc_congr (e e' : Neptune.NepEnv) (h : e'.sgVpc = e.sgVpc) :
    Neptune.lookupSgVpc e' = Neptune.lookupSgVpc e := by
  funext g
  unfold Neptune.lookupSgVpc
  rw [h]

/-- Helper: subnet lookup only reads the `subnetVpc` mapping. -/
theorem lookupSubnetVpc_congr (e e' : Neptune.NepEnv) (h : e'.subnetVpc = e.subnetVpc) :
    Neptune.lookupSubnetVpc e' = Neptune.lookupSubnetVpc e := by
  funext s
  unfold Neptune.lookupSubnetVpc
  rw [h]

/-- Helper: the validation block reads the control plane only through the
two VPC mappings. -/
theorem validateVpcSettings_congr (subnetIds : List String) (g : Option String)
    (e e' : Neptune.NepEnv) (h1 : e'.sgVpc = e.sgVpc) (h2 : e'.subnetVpc = e.subnetVpc) :
    Neptune.validateVpcSettings subnetIds g e' = Neptune.validateVpcSettings subnetIds g e := by
  unfold Neptune.validateVpcSettings
  rw [lookupSgVpc_congr e e' h1, lookupSubnetVpc_congr e e' h2]

/-- Helper: a cross-VPC mismatch makes the validation block raise one of
its two `ValueError`s. -/
theorem validateVpcSettings_mismatch (g sgv : String)
    (subnetIds ws : List String) (env : Neptune.NepEnv)
    (hsg : Neptune.lookupSgVpc env g = some sgv)
    (hws : subnetIds.mapM (Neptune.lookupSubnetVpc env) = some ws)
    (hne : ws ≠ [])
    (hmm : ws.dedup ≠ [sgv]) :
    Neptune.validateVpcSettings subnetIds (some g) env = .error "Subnets are in different VPCs" ∨
    Neptune.validateVpcSettings subnetIds (some g) env =
      .error "Security group VPC does not match subnet VPC" := by
  unfold Neptune.validateVpcSettings
  simp only [hsg, hws]
  rcases hd : ws.dedup with _ | ⟨w, ws'⟩
  · exact absurd ((List.dedup_eq_nil _).mp hd) hne
  · cases ws' with
    | nil =>
      have hw : w ≠ sgv := fun h => hmm (by rw [hd, h])
      simp [hd, bne_iff_ne, Ne.symm hw]
    | cons w' ws'' => simp [hd]

/-- Claim C4: when no cluster of the requested name exists and the
supplied security group and subnets do not sit in one common VPC (either
the subnets span several VPCs or the security group's VPC differs from
theirs), `create_cluster` raises the corresponding configuration-mismatch
`ValueError` before the cluster-creation step: `create_db_cluster` is
never invoked (the count of such calls in the issue log is unchanged). -/
theorem c4_cross_network_mismatch_fatal (clusterName g sgv : String)
    (subnetIds ws : List String) (env : Neptune.NepEnv) (mgr : Neptune.Mgr)
    (hnone : Neptune.describeCluster env clusterName = none)
    (hsg : Neptune.lookupSgVpc env g = some sgv)
    (hws : subnetIds.mapM (Neptune.lookupSubnetVpc env) = some ws)
    (hne : ws ≠ [])
    (hmm : ws.dedup ≠ [sgv]) :
    ((Neptune.createCluster clusterName subnetIds (some g) none env mgr).1 =
        .error "Subnets are in different VPCs" ∨
     (Neptune.createCluster clusterName subnetIds (some g) none env mgr).1 =
        .error "Security group VPC does not match subnet VPC") ∧
    (Neptune.createCluster clusterName subnetIds (some g) none env mgr).2.1.log.count
        Neptune.NCall.createDbClusterC = env.log.count Neptune.NCall.createDbClusterC := by
  have hfind := findExistingCluster_absent clusterName env
    { mgr with securityGroupId := some g } hnone
  have hmis := validateVpcSettings_mismatch g sgv subnetIds ws env hsg hws hne hmm
  simp only [Neptune.createCluster, hfind, Option.getD_none]
  generalize hE : (if (Neptune.createParameterGroup clusterName env).subnetGroups.contains
        (clusterName ++ "-subnet-group") = true
      then Neptune.createParameterGroup clusterName env
      else Neptune.logCall
        { clusters := (Neptune.createParameterGroup clusterName env).clusters,
          instances := (Neptune.createParameterGroup clusterName env).instances,
          paramGroups := (Neptune.createParameterGroup clusterName env).paramGroups,
          subnetGroups := (Neptune.createParameterGroup clusterName env).subnetGroups ++
            [clusterName ++ "-subnet-group"],
          sgVpc := (Neptune.createParameterGroup clusterName env).sgVpc,
          subnetVpc := (Neptune.createParameterGroup clusterName env).subnetVpc,
          newClusterFuture := (Neptune.createParameterGroup clusterName env).newClusterFuture,
          newInstanceFuture := (Neptune.createParameterGroup clusterName env).newInstanceFuture,
          dnsObs := (Neptune.createParameterGroup clusterName env).dnsObs,
          log := (Neptune.createParameterGroup clusterName env).log }
        Neptune.NCall.createSubnetGroupC) = env3
  have h1 : env3.sgVpc = env.sgVpc := by
    rw [← hE]
    split <;> simp [logCall_sgVpc, createParameterGroup_sgVpc]
  have h2 : env3.subnetVpc = env.subnetVpc := by
    rw [← hE]
    split <;> simp [logCall_subnetVpc, createParameterGroup_subnetVpc]
  have h3 : env3.log.count Neptune.NCall.createDbClusterC =
      env.log.count Neptune.NCall.createDbClusterC := by
    rw [← hE]
    split
    · simp [createParameterGroup_log, List.count_append]
    · simp [logCall_log, createParameterGroup_log, List.count_append]
  rcases hmis with hval | hval
  · simp only [(validateVpcSettings_congr subnetIds (some g) env env3 h1 h2).trans hval]
    exact ⟨Or.inl trivial, h3⟩
  · simp only [(validateVpcSettings_congr subnetIds (some g) env env3 h1 h2).trans hval]
    exact ⟨Or.inr trivial, h3⟩

/-- Witness for C4: a security group in `vpc-2` with both subnets in
`vpc-1` makes `create_cluster` raise the mismatch error with no
`create_db_cluster` call issued. -/
theorem c4_witness :
    ((Neptune.createCluster "bench" ["sub-1", "sub-2"] (some "sg-1") none
        Neptune.envMismatch Neptune.mgr0).1 = .error "Subnets are in different VPCs" ∨
     (Neptune.createCluster "bench" ["sub-1", "sub-2"] (some "sg-1") none
        Neptune.envMismatch Neptune.mgr0).1 =
        .error "Security group VPC does not match subnet VPC") ∧
    (Neptune.createCluster "bench" ["sub-1", "sub-2"] (some "sg-1") none
        Neptune.envMismatch Neptune.mgr0).2.1.log.count Neptune.NCall.createDbClusterC =
      Neptune.envMismatch.log.count Neptune.NCall.createDbClusterC :=
  c4_cross_network_mismatch_fatal "bench" "sg-1" "vpc-2" ["sub-1", "sub-2"]
    ["vpc-1", "vpc-1"] Neptune.envMismatch Neptune.mgr0
    (by decide) (by decide) (by decide) (by decide) (by decide)

/-- Helper: a successful cluster wait leaves the cluster just observed
`available` and touches no instance. -/
theorem waitForCluster_ok (env : Neptune.NepEnv) (cid : String) (env' : Neptune.NepEnv)
    (h : Neptune.waitForCluster env cid = (.ok (), env')) :
    (∃ c ∈ env'.clusters, c.id = cid ∧ c.status = "available") ∧
    env'.instances = env.instances := by
  unfold Neptune.waitForCluster at h
  cases hd : Neptune.describeCluster env cid with
  | none => rw [hd] at h; exact absurd (congrArg Prod.fst h) (by simp)
  | some c =>
    simp only [hd] at h
    cases hs : Neptune.waitScan (c.status :: c.future) with
    | error e => rw [hs] at h; exact absurd (congrArg Prod.fst h) (by simp)
    | ok rest =>
      rw [hs] at h
      have henv : env' = Neptune.updateCluster env cid
          (fun c => { c with status := "available", future := rest }) :=
        (congrArg Prod.snd h).symm
      subst henv
      refine ⟨⟨{ (c : Neptune.NCluster) with status := "available", future := rest }, ?_, ?_, rfl⟩, rfl⟩
      · have hmem : c ∈ env.clusters := List.mem_of_find?_eq_some hd
        have hbeq : (c.id == cid) = true := by
          have := List.find?_some hd
          simpa using this
        have himg := List.mem_map_of_mem
          (fun d => if d.id == cid then { d with status := "available", future := rest } else d) hmem
        simp only [hbeq, if_true] at himg
        exact himg
      · have hbeq : (c.id == cid) = true := by
          have := List.find?_some hd
          simpa using this
        simpa using (eq_of_beq hbeq)

/-- Helper: a successful instance wait leaves that instance `available`,
with its cluster attachment intact, and touches no cluster. -/
theorem waitForInstance_ok (env : Neptune.NepEnv) (iid : String) (env' : Neptune.NepEnv)
    (h : Neptune.waitForInstance env iid = (.ok (), env')) :
    (∃ rest, env' = Neptune.updateInstance env iid
      (fun i => { i with status := "available", future := rest })) ∧
    env'.clusters = env.clusters := by
  unfold Neptune.waitForInstance at h
  cases hd : Neptune.describeInstance env iid with
  | none => rw [hd] at h; exact absurd (congrArg Prod.fst h) (by simp)
  | some i =>
    simp only [hd] at h
    cases hs : Neptune.waitScan (i.status :: i.future) with
    | error e => rw [hs] at h; exact absurd (congrArg Prod.fst h) (by simp)
    | ok rest =>
      rw [hs] at h
      have henv : env' = Neptune.updateInstance env iid
          (fun i => { i with status := "available", future := rest }) :=
        (congrArg Prod.snd h).symm
      exact ⟨⟨rest, henv⟩, by rw [henv]; rfl⟩

/-- Helper: `_ensure_instance` on a manager that never set `cluster_id`
fails parameter validation before any call. -/
theorem ensureInstance_none (n : String) (env : Neptune.NepEnv) (mgr : Neptune.Mgr)
    (hm : mgr.clusterId = none) :
    Neptune.ensureInstance n env mgr =
      (.error "Parameter validation failed: db-cluster-id filter value is None", env, mgr) := by
  unfold Neptune.ensureInstance
  rw [hm]

/-- Helper: a successful `_ensure_instance` leaves at least one instance
of the tracked cluster `available` and does not touch the clusters. -/
theorem ensureInstance_ok (n : String) (env : Neptune.NepEnv) (mgr : Neptune.Mgr)
    (cid : String) (env' : Neptune.NepEnv) (mgr' : Neptune.Mgr)
    (hcid : mgr.clusterId = some cid)
    (h : Neptune.ensureInstance n env mgr = (.ok (), env', mgr')) :
    (∃ i ∈ env'.instances, i.clusterId = cid ∧ i.status = "available") ∧
    env'.clusters = env.clusters := by
  unfold Neptune.ensureInstance at h
  simp only [hcid] at h
  cases hio : Neptune.instancesOf env cid with
  | nil =>
    simp only [hio] at h
    split at h
    · rename_i a env2 heq
      have henv : env' = env2 := (congrArg (fun p => p.2.1) h).symm
      subst henv
      obtain ⟨⟨rest, hupd⟩, hcl⟩ := waitForInstance_ok _ _ _ heq
      subst hupd
      constructor
      · refine ⟨⟨n ++ "-instance", cid, "available", rest⟩, ?_, rfl, rfl⟩
        simp [Neptune.updateInstance, Neptune.logCall, List.mem_map, List.mem_append]
      · simpa [Neptune.logCall] using hcl
    · rename_i e env2 heq
      exact absurd (congrArg (fun p => p.1) h) (by simp)
  | cons inst tail =>
    simp only [hio] at h
    have hmemfil : inst ∈ Neptune.instancesOf env cid := by
      rw [hio]; exact List.mem_cons_self _ _
    have hmem : inst ∈ env.instances := (List.mem_filter.mp hmemfil).1
    have hcid2 : inst.clusterId = cid := by
      have hb := (List.mem_filter.mp hmemfil).2
      simpa using hb
    split at h
    · rename_i hst
      have henv : env' = env := (congrArg (fun p => p.2.1) h).symm
      subst henv
      exact ⟨⟨inst, hmem, hcid2, by simpa using hst⟩, rfl⟩
    · rename_i hst
      split at h
      · rename_i a env2 heq
        have henv : env' = env2 := (congrArg (fun p => p.2.1) h).symm
        subst henv
        obtain ⟨⟨rest, hupd⟩, hcl⟩ := waitForInstance_ok _ _ _ heq
        subst hupd
        constructor
        · refine ⟨⟨inst.id, inst.clusterId, "available", rest⟩, ?_, hcid2, rfl⟩
          have himg := List.mem_map_of_mem
            (fun j => if j.id == inst.id then
              { j with status := "available", future := rest } else j) hmem
          simpa [Neptune.updateInstance] using himg
        · exact hcl
      · rename_i e env2 heq
        exact absurd (congrArg (fun p => p.1) h) (by simp)

/-- Helper: logging a call keeps the clusters. -/
theorem logCall_clusters (e : Neptune.NepEnv) (c : Neptune.NCall) :
    (Neptune.logCall e c).clusters = e.clusters := rfl

/-- Helper: the parameter-group create call keeps the clusters. -/
theorem createParameterGroup_clusters (n : String) (e : Neptune.NepEnv) :
    (Neptune.createParameterGroup n e).clusters = e.clusters := by
  simp only [Neptune.createParameterGroup, Neptune.logCall]
  split <;> rfl

/-- Helper: an id- and status-preserving point update keeps an available
cluster available. -/
theorem exists_avail_updateCluster (env : Neptune.NepEnv) (cid n : String)
    (f : Neptune.NCluster → Neptune.NCluster)
    (hf : ∀ c, (f c).id = c.id ∧ (f c).status = c.status)
    (h : ∃ c ∈ env.clusters, c.id = n ∧ c.status = "available") :
    ∃ c ∈ (Neptune.updateCluster env cid f).clusters, c.id = n ∧ c.status = "available" := by
  obtain ⟨c, hmem, hid, hst⟩ := h
  have himg := List.mem_map_of_mem (fun d => if d.id == cid then f d else d) hmem
  by_cases hb : (c.id == cid) = true
  · refine ⟨f c, ?_, by rw [(hf c).1, hid], by rw [(hf c).2, hst]⟩
    simpa [Neptune.updateCluster, hb] using himg
  · refine ⟨c, ?_, hid, hst⟩
    simpa [Neptune.updateCluster, hb] using himg

/-- Helper: the parameter-group arm keeps an available cluster available. -/
theorem fixParamGroupStep_avail (n cid : String) (c : Neptune.NCluster)
    (env1 : Neptune.NepEnv)
    (hav : ∃ d ∈ env1.clusters, d.id = cid ∧ d.status = "available") :
    ∃ d ∈ (Neptune.fixParamGroupStep n cid c env1).clusters,
      d.id = cid ∧ d.status = "available" := by
  unfold Neptune.fixParamGroupStep
  split
  · exact hav
  · rw [logCall_clusters]
    refine exists_avail_updateCluster _ cid cid _ (fun d => ⟨rfl, rfl⟩) ?_
    rw [createParameterGroup_clusters]
    exact hav

/-- Helper: the instance-checking tail of `_fix_cluster_config` can only
report `true` when the cluster stayed available through the
parameter-group arm and the instance step. -/
theorem fixTail_avail (n cid : String) (c : Neptune.NCluster) (fixed1 : Bool)
    (env1 : Neptune.NepEnv) (mgr : Neptune.Mgr) (env' : Neptune.NepEnv) (mgr' : Neptune.Mgr)
    (hfx : fixed1 = true → ∃ d ∈ env1.clusters, d.id = cid ∧ d.status = "available")
    (hmain : (match Neptune.instancesOf (Neptune.fixParamGroupStep n cid c env1) cid with
      | [] =>
        match Neptune.ensureInstance n (Neptune.fixParamGroupStep n cid c env1) mgr with
        | (.ok _, env3, mgr3) => (fixed1, env3, mgr3)
        | (.error _, env3, mgr3) => (false, env3, mgr3)
      | inst :: _ =>
        if inst.status == "available" then
          (fixed1, Neptune.fixParamGroupStep n cid c env1, mgr)
        else (false, Neptune.fixParamGroupStep n cid c env1, mgr)) = (true, env', mgr')) :
    ∃ d ∈ env'.clusters, d.id = cid ∧ d.status = "available" := by
  split at hmain
  · split at hmain
    · rename_i u E M hens
      have hfix1 : fixed1 = true := by simpa using congrArg (fun p => p.1) hmain
      have henv : env' = E := by simpa using (congrArg (fun p => p.2.1) hmain).symm
      subst henv
      rcases hm : mgr.clusterId with _ | cid'
      · rw [ensureInstance_none n _ mgr hm] at hens
        exact absurd (congrArg (fun p => p.1) hens) (by simp)
      · cases u
        obtain ⟨-, hcl⟩ := ensureInstance_ok n _ mgr cid' env' M hm hens
        rw [hcl]
        exact fixParamGroupStep_avail n cid c env1 (hfx hfix1)
    · exact absurd (congrArg (fun p => p.1) hmain) (by simp)
  · split at hmain
    · have hfix1 : fixed1 = true := by simpa using congrArg (fun p => p.1) hmain
      have henv : env' = Neptune.fixParamGroupStep n cid c env1 := by
        simpa using (congrArg (fun p => p.2.1) hmain).symm
      subst henv
      exact fixParamGroupStep_avail n cid c env1 (hfx hfix1)
    · exact absurd (congrArg (fun p => p.1) hmain) (by simp)

/-- Helper: when `_fix_cluster_config` reports the configuration fixed and
the cluster was `available` at entry, the cluster is still (or again)
`available` in the resulting control plane. -/
theorem fixClusterConfig_true (n cid : String) (env : Neptune.NepEnv) (mgr : Neptune.Mgr)
    (env' : Neptune.NepEnv) (mgr' : Neptune.Mgr)
    (hav : ∃ c ∈ env.clusters, c.id = cid ∧ c.status = "available")
    (h : Neptune.fixClusterConfig n cid env mgr = (true, env', mgr')) :
    ∃ c ∈ env'.clusters, c.id = cid ∧ c.status = "available" := by
  unfold Neptune.fixClusterConfig at h
  cases hd : Neptune.describeCluster env cid with
  | none =>
    simp only [hd] at h
    exact absurd (congrArg (fun p => p.1) h) (by simp)
  | some c =>
    simp only [hd] at h
    by_cases hiam : c.iamAuth = true
    · rw [if_pos hiam] at h
      exact fixTail_avail n cid c true env mgr env' mgr' (fun _ => hav) h
    · rw [if_neg hiam] at h
      rcases hw : Neptune.waitForCluster
          (Neptune.logCall (Neptune.updateCluster env cid (fun c => { c with iamAuth := true }))
            Neptune.NCall.modifyClusterIam) cid with ⟨r, env2⟩
      rw [hw] at h
      cases r with
      | ok a =>
        cases a
        exact fixTail_avail n cid c true env2 mgr env' mgr'
          (fun _ => (waitForCluster_ok _ _ _ hw).1) h
      | error e =>
        exact fixTail_avail n cid c false env2 mgr env' mgr'
          (fun hfx => absurd hfx (by decide)) h

/-- Helper: when discovery returns an endpoint, the discovered cluster is
`available` and has an `available` instance attached. -/
theorem findExistingCluster_some (n : String) (env : Neptune.NepEnv) (mgr : Neptune.Mgr)
    (ep : String) (env' : Neptune.NepEnv) (mgr' : Neptune.Mgr)
    (h : Neptune.findExistingCluster n env mgr = (.ok (some ep), env', mgr')) :
    Neptune.usable env' n := by
  unfold Neptune.findExistingCluster at h
  cases hd : Neptune.describeCluster env n with
  | none =>
    simp only [hd] at h
    exact absurd (congrArg (fun p => p.1) h) (by simp)
  | some c =>
    simp only [hd] at h
    have hcid : c.id = n := by
      have hp := List.find?_some hd
      simpa using hp
    by_cases hst : (c.status != "available") = true
    · rw [if_pos hst] at h
      exact absurd (congrArg (fun p => p.1) h) (by simp)
    · rw [if_neg hst] at h
      have hstat : c.status = "available" := by
        simpa using hst
      rcases hfix : Neptune.fixClusterConfig n c.id env mgr with ⟨b, env1, mgr1⟩
      rw [hfix] at h
      cases b with
      | false =>
        simp only [] at h
        exact absurd (congrArg (fun p => p.1) h) (by simp)
      | true =>
        simp only [] at h
        have hav1 := fixClusterConfig_true n c.id env mgr env1 mgr1
          ⟨c, List.mem_of_find?_eq_some hd, rfl, hstat⟩ hfix
        rcases he : Neptune.ensureInstance n env1
            { mgr1 with clusterId := some c.id, endpoint := some c.endpoint } with ⟨r2, env2, mgr2⟩
        rw [he] at h
        cases r2 with
        | error e =>
          exact absurd (congrArg (fun p => p.1) h) (by simp)
        | ok u =>
          cases u
          have henv : env' = env2 := by simpa using (congrArg (fun p => p.2.1) h).symm
          subst henv
          obtain ⟨hinst, hcl⟩ := ensureInstance_ok n env1 _ c.id env' mgr2 rfl he
          constructor
          · rw [hcl]
            obtain ⟨d, hm2, hid, hs⟩ := hav1
            exact ⟨d, hm2, by rw [hid, hcid], hs⟩
          · obtain ⟨i, him, hic, his⟩ := hinst
            exact ⟨i, him, by rw [hic, hcid], his⟩

/-- Helper: every successful `create_cluster` run ends in a control plane
where the requested cluster is `available` with an `available` instance. -/
theorem createCluster_usable (clusterName : String) (subnetIds : List String)
    (securityGroupId : Option String) (subnetGroupOpt : Option String)
    (env : Neptune.NepEnv) (mgr : Neptune.Mgr) (ep : String)
    (env' : Neptune.NepEnv) (mgr' : Neptune.Mgr)
    (h : Neptune.createCluster clusterName subnetIds securityGroupId subnetGroupOpt env mgr =
      (.ok ep, env', mgr')) :
    Neptune.usable env' clusterName := by
  unfold Neptune.createCluster at h
  simp only [] at h
  rcases hfind : Neptune.findExistingCluster clusterName env
      { mgr with securityGroupId := securityGroupId } with ⟨r1, env1, mgr1⟩
  rw [hfind] at h
  cases r1 with
  | error e =>
    simp only [] at h
    exact absurd (congrArg (fun p => p.1) h) (by simp)
  | ok o =>
    cases o with
    | some ep0 =>
      simp only [] at h
      have henv : env' = env1 := by simpa using (congrArg (fun p => p.2.1) h).symm
      subst henv
      exact findExistingCluster_some clusterName env _ ep0 _ mgr1 hfind
    | none =>
      simp only [] at h
      repeat' split at h
      all_goals
        try (have hx := congrArg (fun p => p.1) h; simp at hx)
      all_goals {
        rename_i xw uw env6 hwait xd c2 hdesc xe ue env7 mgr5 hens xr rest hdns
        cases uw
        cases ue
        obtain ⟨havail6, -⟩ := waitForCluster_ok _ _ _ hwait
        obtain ⟨hinst, hcl⟩ := ensureInstance_ok clusterName env6 _ clusterName env7 mgr5 rfl hens
        have hcl2 : env'.clusters = env6.clusters :=
          (congrArg (fun p => (p.2.1).clusters) h).symm.trans hcl
        have hin2 : env'.instances = env7.instances :=
          (congrArg (fun p => (p.2.1).instances) h).symm
        constructor
        · rw [hcl2]; exact havail6
        · rw [hin2]; exact hinst
      }

/-- Claim C5: every successful endpoint return of
`NeptuneManager.create_cluster` or `NeptuneManager.setup_cluster` ends in
a control-plane state where the requested cluster's status is `available`
and at least one compute instance attached to it is also `available`; the
operation waits for both before returning. -/
theorem c5_cluster_usable_invariant (clusterName : String) :
    (∀ (subnetIds : List String) (securityGroupId subnetGroupOpt : Option String)
        (env : Neptune.NepEnv) (mgr : Neptune.Mgr) (ep : String)
        (env' : Neptune.NepEnv) (mgr' : Neptune.Mgr),
      Neptune.createCluster clusterName subnetIds securityGroupId subnetGroupOpt env mgr =
        (.ok ep, env', mgr') → Neptune.usable env' clusterName) ∧
    (∀ (env : Neptune.NepEnv) (mgr : Neptune.Mgr) (ep : String)
        (env' : Neptune.NepEnv) (mgr' : Neptune.Mgr),
      Neptune.setupCluster clusterName env mgr = (.ok ep, env', mgr') →
        Neptune.usable env' clusterName) := by
  constructor
  · intro subnetIds securityGroupId subnetGroupOpt env mgr ep env' mgr' h
    exact createCluster_usable clusterName subnetIds securityGroupId subnetGroupOpt
      env mgr ep env' mgr' h
  · intro env mgr ep env' mgr' h
    unfold Neptune.setupCluster at h
    rcases hfind : Neptune.findExistingCluster clusterName env mgr with ⟨r1, env1, mgr1⟩
    rw [hfind] at h
    cases r1 with
    | error e =>
      simp only [] at h
      exact absurd (congrArg (fun p => p.1) h) (by simp)
    | ok o =>
      cases o with
      | some ep0 =>
        simp only [] at h
        have henv : env' = env1 := by simpa using (congrArg (fun p => p.2.1) h).symm
        subst henv
        exact findExistingCluster_some clusterName env _ ep0 _ mgr1 hfind
      | none =>
        simp only [] at h
        split at h
        · exact absurd (congrArg (fun p => p.1) h) (by simp)
        · exact createCluster_usable clusterName mgr1.subnetIds mgr1.securityGroupId none
            env1 mgr1 ep env' mgr' h

/-- Witness for C5: the happy-path creation run on `envOk` and the reuse
run of `setup_cluster` on `envExisting` both land in usable states. -/
theorem c5_witness :
    Neptune.usable Neptune.envOkRun.2.1 "bench" ∧
    Neptune.usable Neptune.envExistingRun.2.1 "bench" :=
  ⟨(c5_cluster_usable_invariant "bench").1 ["sub-1", "sub-2"] (some "sg-1") none
      Neptune.envOk Neptune.mgr0 "bench.cluster.neptune.local"
      Neptune.envOkRun.2.1 Neptune.envOkRun.2.2 (by rfl),
   (c5_cluster_usable_invariant "bench").2 Neptune.envExisting Neptune.mgr0 "ep.bench"
      Neptune.envExistingRun.2.1 Neptune.envExistingRun.2.2 (by rfl)⟩

/-- Helper: the tail of domain discovery returns an endpoint only after
writing it to `os.environ['OPENSEARCH_HOST']`. -/
theorem finishFind_some (s : OpenSearch.Snap) (env : OpenSearch.OSEnv) (ep : String)
    (env1 : OpenSearch.OSEnv)
    (h : OpenSearch.finishFind s env = (.ok (some ep), env1)) :
    env1.envHost = some ep := by
  unfold OpenSearch.finishFind at h
  by_cases hd : s.deleted = true
  · rw [if_pos hd] at h
    exact absurd (congrArg (fun p => p.1) h) (by simp)
  · rw [if_neg hd] at h
    split at h
    · rename_i v ep2 he1 he2
      have hep : ep2 = ep := by
        have h2 := congrArg (fun p => p.1) h
        simpa using h2
      have h1 := congrArg (fun p => (p.2).envHost) h
      simp only [] at h1
      rw [← h1, hep]
    · exact absurd (congrArg (fun p => p.1) h) (by simp)

/-- Helper: domain discovery returns an endpoint only after writing it to
`os.environ['OPENSEARCH_HOST']`. -/
theorem findExistingDomain_some (env : OpenSearch.OSEnv) (ep : String)
    (env1 : OpenSearch.OSEnv)
    (h : OpenSearch.findExistingDomain env = (.ok (some ep), env1)) :
    env1.envHost = some ep := by
  unfold OpenSearch.findExistingDomain at h
  rcases hd : OpenSearch.describeDomain env with ⟨o, envA⟩
  rw [hd] at h
  cases o with
  | none =>
    simp only [] at h
    exact absurd (congrArg (fun p => p.1) h) (by simp)
  | some s0 =>
    simp only [] at h
    by_cases hp : s0.processing = true
    · rw [if_pos hp] at h
      rcases hw : OpenSearch.waitForDomain envA with ⟨r1, envB⟩
      rw [hw] at h
      cases r1 with
      | error e =>
        simp only [] at h
        exact absurd (congrArg (fun p => p.1) h) (by simp)
      | ok u =>
        cases u
        simp only [] at h
        rcases hd2 : OpenSearch.describeDomain envB with ⟨o2, envC⟩
        rw [hd2] at h
        cases o2 with
        | none =>
          simp only [] at h
          exact absurd (congrArg (fun p => p.1) h) (by simp)
        | some s1 =>
          simp only [] at h
          exact finishFind_some s1 envC ep env1 h
    · rw [if_neg hp] at h
      exact finishFind_some s0 envA ep env1 h

/-- Claim C10: every successful return of `setup_domain` — reuse path and
create path alike — has written the returned endpoint to the process-wide
environment variable `OPENSEARCH_HOST` as a side effect. -/
theorem c10_setup_domain_sets_opensearch_host (env : OpenSearch.OSEnv) (ep : String)
    (env' : OpenSearch.OSEnv)
    (h : OpenSearch.setupDomain env = (.ok ep, env')) :
    env'.envHost = some ep := by
  unfold OpenSearch.setupDomain at h
  rcases hfind : OpenSearch.findExistingDomain env with ⟨r1, env1⟩
  rw [hfind] at h
  cases r1 with
  | error e =>
    simp only [] at h
    exact absurd (congrArg (fun p => p.1) h) (by simp)
  | ok o =>
    cases o with
    | some ep0 =>
      simp only [] at h
      have hep : ep0 = ep := by simpa using congrArg (fun p => p.1) h
      have henv : env' = env1 := by simpa using (congrArg (fun p => p.2) h).symm
      subst henv
      subst hep
      exact findExistingDomain_some env ep0 env' hfind
    | none =>
      simp only [] at h
      repeat' split at h
      all_goals try (have hx := congrArg (fun p => p.1) h; simp at hx)
      all_goals {
        rename_i xe ep2 hee xr rest hdns
        have hep : ep2 = ep := by
          have h2 := congrArg (fun p => p.1) h
          simpa using h2
        have h1 := congrArg (fun p => (p.2).envHost) h
        simp only [] at h1
        rw [← h1, hep]
      }

/-- Witness for C10: the reuse run on `envReuse` leaves
`OPENSEARCH_HOST` pointing at the returned endpoint. -/
theorem c10_witness :
    (OpenSearch.setupDomain OpenSearch.envReuse).2.envHost = some "new-ep" :=
  c10_setup_domain_sets_opensearch_host OpenSearch.envReuse "new-ep"
    (OpenSearch.setupDomain OpenSearch.envReuse).2 (by rfl)

/-- Helper: a describe appends exactly its log entry. -/
theorem describeDomain_log (e : OpenSearch.OSEnv) :
    (OpenSearch.describeDomain e).2.log = e.log ++ [OpenSearch.OCall.describeDomainC] := by
  unfold OpenSearch.describeDomain
  rcases ht : e.timeline with _ | ⟨o, rest⟩ <;> simp [OpenSearch.logO]

/-- Helper: the domain wait loop only appends describe entries to the log. -/
theorem waitForDomainGo_log (fuel : Nat) :
    ∀ e : OpenSearch.OSEnv, ∃ t, (OpenSearch.waitForDomainGo fuel e).2.log = e.log ++ t := by
  induction fuel with
  | zero => intro e; exact ⟨[], by simp [OpenSearch.waitForDomainGo]⟩
  | succ f ih =>
    intro e
    unfold OpenSearch.waitForDomainGo
    rcases hd : OpenSearch.describeDomain e with ⟨o, e1⟩
    have ht1 : e1.log = e.log ++ [OpenSearch.OCall.describeDomainC] := by
      have hl := describeDomain_log e
      rwa [hd] at hl
    cases o with
    | none => exact ⟨[OpenSearch.OCall.describeDomainC], by simp [ht1]⟩
    | some s =>
      by_cases hdel : s.deleted = true
      · exact ⟨[OpenSearch.OCall.describeDomainC], by simp [hdel, ht1]⟩
      · by_cases hproc : s.processing = true
        · obtain ⟨t2, ht2⟩ := ih e1
          refine ⟨[OpenSearch.OCall.describeDomainC] ++ t2, ?_⟩
          simp only [hdel, hproc, if_true, if_false, Bool.false_eq_true]
          rw [ht2, ht1, List.append_assoc]
        · by_cases hend : s.endpoint.isSome = true
          · exact ⟨[OpenSearch.OCall.describeDomainC], by simp [hdel, hproc, hend, ht1]⟩
          · obtain ⟨t2, ht2⟩ := ih e1
            refine ⟨[OpenSearch.OCall.describeDomainC] ++ t2, ?_⟩
            simp only [hdel, hproc, hend, if_true, if_false, Bool.false_eq_true]
            rw [ht2, ht1, List.append_assoc]

/-- Helper: `_wait_for_domain` only appends describe entries to the log. -/
theorem waitForDomain_log (e : OpenSearch.OSEnv) :
    ∃ t, (OpenSearch.waitForDomain e).2.log = e.log ++ t :=
  waitForDomainGo_log (e.timeline.length + 1) e

/-- Helper: a domain whose next describe observation carries the `Deleted`
flag (and no `Processing`) makes discovery report "absent" right away,
with that single describe logged. -/
theorem findExisting_deleted (env : OpenSearch.OSEnv) (s : OpenSearch.Snap)
    (tl : List (Option OpenSearch.Snap))
    (hhead : env.timeline = some s :: tl)
    (hdel : s.deleted = true) (hproc : s.processing = false) :
    OpenSearch.findExistingDomain env =
      (.ok none, OpenSearch.logO { env with timeline := tl } .describeDomainC) := by
  simp [OpenSearch.findExistingDomain, OpenSearch.describeDomain, OpenSearch.finishFind,
    hhead, hdel, hproc]

/-- Claim C6, amended: when the discovered domain's status indicates it is
being deleted (`Deleted` flag set, `Processing` already false),
`setup_domain` treats the domain as absent and issues the domain-creation
call immediately after the single discovery describe — it does not block
until the old domain is gone: the call log of the run begins with the
describe followed directly by `create_domain`. -/
theorem c6_amended_create_issued_immediately (env : OpenSearch.OSEnv)
    (s : OpenSearch.Snap) (tl : List (Option OpenSearch.Snap))
    (hhead : env.timeline = some s :: tl)
    (hdel : s.deleted = true) (hproc : s.processing = false) :
    ∃ rest, (OpenSearch.setupDomain env).2.log =
      env.log ++ [OpenSearch.OCall.describeDomainC, OpenSearch.OCall.createDomainC] ++ rest := by
  unfold OpenSearch.setupDomain
  rw [findExisting_deleted env s tl hhead hdel hproc]
  simp only []
  split
  · exact ⟨[], by simp [OpenSearch.logO]⟩
  · split
    · rename_i e env3 heqW
      obtain ⟨t, ht⟩ := waitForDomain_log _
      rw [heqW] at ht
      refine ⟨t, ?_⟩
      simp only [] at ht ⊢
      rw [ht]
      simp [OpenSearch.logO, List.append_assoc]
    · rename_i u env3 heqW
      obtain ⟨t, ht⟩ := waitForDomain_log _
      rw [heqW] at ht
      split
      · rename_i env4 heqD
        have hd4 : env4.log = env3.log ++ [OpenSearch.OCall.describeDomainC] := by
          have hl := describeDomain_log env3
          rwa [heqD] at hl
        refine ⟨t ++ [OpenSearch.OCall.describeDomainC], ?_⟩
        simp only [] at ht hd4 ⊢
        rw [hd4, ht]
        simp [OpenSearch.logO, List.append_assoc]
      · rename_i s4 env4 heqD
        have hd4 : env4.log = env3.log ++ [OpenSearch.OCall.describeDomainC] := by
          have hl := describeDomain_log env3
          rwa [heqD] at hl
        split
        · refine ⟨t ++ [OpenSearch.OCall.describeDomainC], ?_⟩
          simp only [] at ht hd4 ⊢
          rw [hd4, ht]
          simp [OpenSearch.logO, List.append_assoc]
        · rename_i ep heqE
          split
          · refine ⟨t ++ [OpenSearch.OCall.describeDomainC], ?_⟩
            simp only [] at ht hd4 ⊢
            rw [hd4, ht]
            simp [OpenSearch.logO, List.append_assoc]
          · refine ⟨t ++ [OpenSearch.OCall.describeDomainC], ?_⟩
            simp only [] at ht hd4 ⊢
            rw [hd4, ht]
            simp [OpenSearch.logO, List.append_assoc]

/-- Witness for the amended C6 theorem: on `envDeleting`, whose first
describe returns a snapshot with `Deleted` set and `Processing` clear,
the run logs `create_domain` directly after the discovery describe. -/
theorem c6_amended_witness :
    ∃ rest, (OpenSearch.setupDomain OpenSearch.envDeleting).2.log =
      OpenSearch.envDeleting.log ++
      [OpenSearch.OCall.describeDomainC, OpenSearch.OCall.createDomainC] ++ rest :=
  c6_amended_create_issued_immediately OpenSearch.envDeleting OpenSearch.snapDeleting []
    (by rfl) (by rfl) (by rfl)

/-- Helper: logging a call keeps the instance records. -/
theorem describeInstance_logCall (e : Neptune.NepEnv) (c : Neptune.NCall) (i : String) :
    Neptune.describeInstance (Neptune.logCall e c) i = Neptune.describeInstance e i := rfl

/-- Helper: logging a call keeps the cluster records. -/
theorem describeCluster_logCall (e : Neptune.NepEnv) (c : Neptune.NCall) (i : String) :
    Neptune.describeCluster (Neptune.logCall e c) i = Neptune.describeCluster e i := rfl

/-- Helper: logging a call keeps the parameter groups. -/
theorem logCall_paramGroups (e : Neptune.NepEnv) (c : Neptune.NCall) :
    (Neptune.logCall e c).paramGroups = e.paramGroups := rfl

/-- Helper: logging a call keeps the subnet groups. -/
theorem logCall_subnetGroups (e : Neptune.NepEnv) (c : Neptune.NCall) :
    (Neptune.logCall e c).subnetGroups = e.subnetGroups := rfl

/-- Helper: logging a domain call keeps the presence flag. -/
theorem logO_domainPresent (e : OpenSearch.OSEnv) (c : OpenSearch.OCall) :
    (OpenSearch.logO e c).domainPresent = e.domainPresent := rfl

/-- Claim C8, amended: the deletes of the database-side resources
(compute instance, cluster, parameter group, subnet group — cluster.py
lines 401-487) and of the search domain (manager.py lines 199-215) each
tolerate an already-absent resource: with every one of those resources
absent, both cleanups return success, leave the resource state unchanged
and record only the attempted delete calls, so re-invoking teardown after
a partial failure succeeds on that side.  The tolerance does NOT extend to
the network teardown of `_cleanup_vpc` (neptune_utils.py lines 382-456),
whose delete calls have no not-found arm (see the counterexample). -/
theorem c8_amended_database_side_tolerant
    (clusterName iid cid : String) (env : Neptune.NepEnv) (mgr : Neptune.Mgr)
    (oenv : OpenSearch.OSEnv)
    (hmi : mgr.instanceId = some iid) (hmc : mgr.clusterId = some cid)
    (hinst : Neptune.describeInstance env iid = none)
    (hclu : Neptune.describeCluster env cid = none)
    (hpg : env.paramGroups.contains (Neptune.paramGroupName clusterName) = false)
    (hsg : env.subnetGroups.contains (clusterName ++ "-subnet-group") = false)
    (hdom : oenv.domainPresent = false) :
    Neptune.cleanup clusterName true env mgr =
      (.ok (), { env with log := env.log ++
        [Neptune.NCall.deleteDbInstanceC, Neptune.NCall.deleteDbClusterC,
         Neptune.NCall.deleteParamGroupC, Neptune.NCall.deleteSubnetGroupC] }) ∧
    OpenSearch.cleanup true oenv =
      (.ok (), OpenSearch.logO oenv OpenSearch.OCall.deleteDomainC) := by
  constructor
  · simp only [Neptune.cleanup, hmi, hmc, Bool.not_true, Bool.false_eq_true, if_false,
      describeInstance_logCall, describeCluster_logCall,
      logCall_paramGroups, logCall_subnetGroups,
      hinst, hclu, hpg, hsg, Option.isSome_none, ite_false]
    simp [Neptune.logCall]
  · simp only [OpenSearch.cleanup, Bool.not_true, Bool.false_eq_true, if_false,
      logO_domainPresent, hdom, ite_false]

/-- Witness for the amended C8 theorem: with no instance `i-1`, no cluster
`c-1`, no groups and no domain present, both cleanups succeed, logging one
attempt per database-side resource. -/
theorem c8_amended_witness :
    Neptune.cleanup "bench" true Neptune.envAbsent
        ⟨some "c-1", some "i-1", none, none, [], none⟩ =
      (.ok (), { Neptune.envAbsent with log := Neptune.envAbsent.log ++
        [Neptune.NCall.deleteDbInstanceC, Neptune.NCall.deleteDbClusterC,
         Neptune.NCall.deleteParamGroupC, Neptune.NCall.deleteSubnetGroupC] }) ∧
    OpenSearch.cleanup true OpenSearch.envGone =
      (.ok (), OpenSearch.logO OpenSearch.envGone OpenSearch.OCall.deleteDomainC) :=
  c8_amended_database_side_tolerant "bench" "i-1" "c-1" Neptune.envAbsent
    ⟨some "c-1", some "i-1", none, none, [], none⟩ OpenSearch.envGone
    rfl rfl rfl rfl rfl rfl rfl
